import Mathlib

/-!
Verification development for the legal-evidence-organizer backend.

This file gives a shallow embedding, in Lean 4, of the pieces of the
backend that the specification talks about:

* the WhatsApp chat-log parser (`app/services/chat_service.py`),
  including a faithful model of the message regular expression and of
  Python `datetime.strptime` for the four formats the service tries;
* the aggregation stage of timeline generation
  (`app/routes/timeline.py`), which merges e-mail, chat and PDF records
  and sorts the dated part;
* the JSON-reply handling of the LLM services
  (`app/services/gemini_service.py`, `app/services/openai_service.py`);
* the placeholder-row lifecycle of timelines and reports
  (`app/routes/timeline.py`, `app/routes/report.py`), including the
  report section renderer;
* the upload endpoints (`app/routes/upload.py`) and the save operations
  of the e-mail, chat and PDF services.

Datetimes stored in the database are modelled as `Nat` instants where
only their order matters (ISO-8601 strings of naive datetimes compare
lexicographically exactly as the instants do); datetimes produced by
parsing are modelled by the explicit `DateTime` structure below.
-/

/-! ## Characters and small helpers -/

/-- ASCII digit test (Python `strptime` and `str.isdigit` on ASCII data). -/
def isDigitC (c : Char) : Bool := '0' ≤ c && c ≤ '9'

/-- Numeric value of a digit character. -/
def digitVal (c : Char) : Nat := c.toNat - '0'.toNat

/-- Value of a digit string, most significant first (Python `int` on digits). -/
def natOfDigits (l : List Char) : Nat := l.foldl (fun a c => 10 * a + digitVal c) 0

/-- ASCII whitespace, the subset of Python regex `\s` and `str.strip`
relevant to this code base. -/
def isSpaceC (c : Char) : Bool :=
  c = ' ' || c = '\t' || c = '\n' || c = '\x0b' || c = '\x0c' || c = '\r'

/-- Length of the longest prefix whose characters all satisfy `p`. -/
def countLeading (p : Char → Bool) : List Char → Nat
  | [] => 0
  | c :: r => if p c then countLeading p r + 1 else 0

/-- The naturals from `hi` down to `lo` (empty when `hi < lo`). -/
def descToFrom (hi lo : Nat) : List Nat := (List.range' lo (hi + 1 - lo)).reverse

/-- Python `str.strip()`: drop leading and trailing whitespace. -/
def pstrip (l : List Char) : List Char :=
  ((l.dropWhile isSpaceC).reverse.dropWhile isSpaceC).reverse

/-! ## Datetimes

A parsed wall-clock datetime, as produced by `datetime.strptime` /
`datetime.fromisoformat`. -/

structure DateTime where
  year : Nat
  month : Nat
  day : Nat
  hour : Nat
  minute : Nat
  second : Nat
deriving DecidableEq

/-- Gregorian leap-year rule, as used by Python `datetime` validation. -/
def isLeapYear (y : Nat) : Bool := y % 4 = 0 && (y % 100 ≠ 0 || y % 400 = 0)

/-- Days in a month, as used by Python `datetime` validation. -/
def daysInMonth (y m : Nat) : Nat :=
  if m = 2 then (if isLeapYear y then 29 else 28)
  else if m = 4 || m = 6 || m = 9 || m = 11 then 30
  else 31

/-! ## A model of `datetime.strptime`

CPython compiles a format string to a regular expression (module
`_strptime`) in which each directive is an ordered alternation of digit
patterns, literal characters match themselves and whitespace in the
format matches one or more whitespace characters.  The whole regex is
matched with backtracking against a prefix of the data; if the chosen
match does not consume the entire string the call raises
("unconverted data remains"), and finally the matched field values are
validated by the `datetime` constructor.

We model exactly that: each directive yields its candidate
`(value, rest)` pairs in the alternation order of `_strptime`, the
format is run with full backtracking, the first complete match of the
format is kept, and the result is validated. -/

/-- The strptime directives used by this code base. -/
inductive Dir
  | dm   -- %m : month, pattern 1[0-2]|0[1-9]|[1-9]
  | dd   -- %d : day, pattern 3[01]|[12][0-9]|0[1-9]|[1-9]
  | dy   -- %y : two-digit year, pattern [0-9][0-9]|[0-9]
  | dY   -- %Y : four-digit year, pattern [0-9][0-9][0-9][0-9]
  | dH   -- %H : hour, pattern 2[0-3]|[01][0-9]|[0-9]
  | dM   -- %M : minute, pattern [0-5][0-9]|[0-9]
  | dS   -- %S : second, pattern 6[01]|[0-5][0-9]|[0-9]
deriving DecidableEq

/-- A token of a compiled format string. -/
inductive FTok
  | dir (d : Dir)
  | lit (c : Char)
  | ws
deriving DecidableEq

/-- Candidate two-digit match whose digits satisfy `p1` and `p2`. -/
def cand2 (p1 p2 : Char → Bool) (s : List Char) : List (Nat × List Char) :=
  match s with
  | c1 :: c2 :: r => if p1 c1 && p2 c2 then [(10 * digitVal c1 + digitVal c2, r)] else []
  | _ => []

/-- Candidate one-digit match whose digit satisfies `p`. -/
def cand1 (p : Char → Bool) (s : List Char) : List (Nat × List Char) :=
  match s with
  | c :: r => if p c then [(digitVal c, r)] else []
  | _ => []

/-- Candidate four-digit match (for `%Y`). -/
def cand4 (s : List Char) : List (Nat × List Char) :=
  match s with
  | c1 :: c2 :: c3 :: c4 :: r =>
    if isDigitC c1 && isDigitC c2 && isDigitC c3 && isDigitC c4 then
      [(natOfDigits [c1, c2, c3, c4], r)]
    else []
  | _ => []

/-- Character range test. -/
def between (lo hi c : Char) : Bool := lo ≤ c && c ≤ hi

/-- Candidate matches of one directive, in `_strptime` alternation order. -/
def dirCands : Dir → List Char → List (Nat × List Char)
  | .dm, s => cand2 (· = '1') (between '0' '2') s ++ cand2 (· = '0') (between '1' '9') s
      ++ cand1 (between '1' '9') s
  | .dd, s => cand2 (· = '3') (between '0' '1') s ++ cand2 (between '1' '2') isDigitC s
      ++ cand2 (· = '0') (between '1' '9') s ++ cand1 (between '1' '9') s
  | .dy, s => cand2 isDigitC isDigitC s ++ cand1 isDigitC s
  | .dY, s => cand4 s
  | .dH, s => cand2 (· = '2') (between '0' '3') s ++ cand2 (between '0' '1') isDigitC s
      ++ cand1 isDigitC s
  | .dM, s => cand2 (between '0' '5') isDigitC s ++ cand1 isDigitC s
  | .dS, s => cand2 (· = '6') (between '0' '1') s ++ cand2 (between '0' '5') isDigitC s
      ++ cand1 isDigitC s

/-- Field values accumulated while running a format.  `vy` holds the full
year (the `%y` pivot of `time.strptime` maps 0–68 to 2000–2068 and 69–99
to 1969–1999; Python defaults the year to 1900 and month/day to 1). -/
structure StrpState where
  vy : Nat := 1900
  vm : Nat := 1
  vd : Nat := 1
  vH : Nat := 0
  vM : Nat := 0
  vS : Nat := 0
deriving DecidableEq

/-- Record the value parsed for a directive. -/
def setDir (v : StrpState) : Dir → Nat → StrpState
  | .dm, n => { v with vm := n }
  | .dd, n => { v with vd := n }
  | .dy, n => { v with vy := if n ≤ 68 then 2000 + n else 1900 + n }
  | .dY, n => { v with vy := n }
  | .dH, n => { v with vH := n }
  | .dM, n => { v with vM := n }
  | .dS, n => { v with vS := n }

/-- Greedy candidates for format whitespace (`\s+`): consume between one
and all leading whitespace characters, longest first. -/
def wsPlusCands (s : List Char) : List (Nat × List Char) :=
  (descToFrom (countLeading isSpaceC s) 1).map (fun k => (k, s.drop k))

/-- Run a compiled format against data with full backtracking; results
appear in regex preference order. -/
def runFmt : List FTok → StrpState → List Char → List (StrpState × List Char)
  | [], v, s => [(v, s)]
  | .dir d :: ts, v, s => (dirCands d s).flatMap (fun c => runFmt ts (setDir v d c.1) c.2)
  | .lit c :: ts, v, s =>
    match s with
    | c' :: r => if c' = c then runFmt ts v r else []
    | [] => []
  | .ws :: ts, v, s => (wsPlusCands s).flatMap (fun c => runFmt ts v c.2)

/-- Validation performed by the `datetime` constructor after a match:
day must exist in the month and seconds must be below 60 (the `%S`
pattern itself admits leap seconds 60 and 61, which `datetime` rejects). -/
def strpValid (v : StrpState) : Option DateTime :=
  if v.vd ≤ daysInMonth v.vy v.vm && v.vS ≤ 59 then
    some ⟨v.vy, v.vm, v.vd, v.vH, v.vM, v.vS⟩
  else none

/-- Model of `datetime.strptime(data, fmt)`: take the first backtracking
match of the whole format, require it to consume all of the data
("unconverted data remains" otherwise), then validate. -/
def strptime (fmt : List FTok) (s : List Char) : Option DateTime :=
  match runFmt fmt {} s with
  | [] => none
  | q :: _ => if q.2.isEmpty then strpValid q.1 else none

/-- Format `"%m/%d/%y %H:%M"`. -/
def fmtMDYHM : List FTok :=
  [.dir .dm, .lit '/', .dir .dd, .lit '/', .dir .dy, .ws, .dir .dH, .lit ':', .dir .dM]

/-- Format `"%d/%m/%y %H:%M"`. -/
def fmtDMYHM : List FTok :=
  [.dir .dd, .lit '/', .dir .dm, .lit '/', .dir .dy, .ws, .dir .dH, .lit ':', .dir .dM]

/-- Format `"%m/%d/%y %H:%M:%S"`. -/
def fmtMDYHMS : List FTok :=
  [.dir .dm, .lit '/', .dir .dd, .lit '/', .dir .dy, .ws, .dir .dH, .lit ':', .dir .dM,
   .lit ':', .dir .dS]

/-- Format `"%d/%m/%y %H:%M:%S"`. -/
def fmtDMYHMS : List FTok :=
  [.dir .dd, .lit '/', .dir .dm, .lit '/', .dir .dy, .ws, .dir .dH, .lit ':', .dir .dM,
   .lit ':', .dir .dS]

/-- Format `"%Y-%m-%d"` (used by the timeline event writer). -/
def fmtYMD : List FTok := [.dir .dY, .lit '-', .dir .dm, .lit '-', .dir .dd]

/-! ## A model of the WhatsApp message regular expression

`ChatService.process_chat_file` extracts messages with
`re.findall(pattern, chat_text, re.DOTALL)` where `pattern` is

  `\[(\d{1,2}/\d{1,2}/\d{2,4}),\s*(\d{1,2}:\d{1,2}(?::\d{1,2})?\s*(?:AM|PM)?)\]`
  `\s*([^:]+):\s*(.*?)(?=\n\[\d{1,2}/\d{1,2}/\d{2,4}|$)`

We model backtracking regex matching by parsers returning all candidate
`(result, rest)` pairs in regex preference order (greedy pieces longest
first, lazy pieces shortest first, alternations left first); the match
chosen by the engine is the head of the list. -/

/-- A backtracking parser: all candidate results in preference order. -/
def P (α : Type) : Type := List Char → List (α × List Char)

/-- Parser returning `a` without consuming input. -/
def pret {α : Type} (a : α) : P α := fun s => [(a, s)]

/-- Sequencing of parsers; candidate order is the backtracking order. -/
def pbind {α β : Type} (p : P α) (f : α → P β) : P β :=
  fun s => (p s).flatMap (fun q => f q.1 q.2)

/-- Match one literal character. -/
def pchar (c : Char) : P Char := fun s =>
  match s with
  | [] => []
  | x :: r => if x = c then [(x, r)] else []

/-- Zero-width lookahead. -/
def plook (cond : List Char → Bool) : P Unit :=
  fun s => if cond s then [((), s)] else []

/-- Match a fixed character sequence. -/
def pfixed (cs : List Char) : P (List Char) :=
  fun s => if s.take cs.length = cs then [(cs, s.drop cs.length)] else []

/-- Greedy option (`x?`): try the inner parser first, then skip it. -/
def popt {α : Type} (p : P α) : P (Option α) :=
  fun s => ((p s).map (fun q => (some q.1, q.2))) ++ [(none, s)]

/-- Ordered alternation (`x|y`). -/
def palt {α : Type} (p q : P α) : P α := fun s => p s ++ q s

/-- Greedy repetition of a character class with a minimum count:
candidates run from the longest satisfying prefix down to `minLen`. -/
def greedyRun (pc : Char → Bool) (minLen : Nat) : P (List Char) :=
  fun s => (descToFrom (countLeading pc s) minLen).map (fun k => (s.take k, s.drop k))

/-- Lazy `.*?` under `re.DOTALL`: candidates from the empty prefix up. -/
def lazyAny : P (List Char) :=
  fun s => (List.range (s.length + 1)).map (fun k => (s.take k, s.drop k))

/-- Greedy `\d{lo,hi}`: longest digit prefix up to `hi`, down to `lo`. -/
def digitsRange (lo hi : Nat) : P (List Char) :=
  fun s => (descToFrom (min hi (countLeading isDigitC s)) lo).map
    (fun k => (s.take k, s.drop k))

/-- The date sub-pattern `\d{1,2}/\d{1,2}/\d{2,4}`, capturing its text. -/
def dateCore : P (List Char) :=
  pbind (digitsRange 1 2) (fun a =>
  pbind (pchar '/') (fun _ =>
  pbind (digitsRange 1 2) (fun b =>
  pbind (pchar '/') (fun _ =>
  pbind (digitsRange 2 4) (fun c =>
  pret (a ++ '/' :: b ++ '/' :: c))))))

/-- The time sub-pattern `\d{1,2}:\d{1,2}(?::\d{1,2})?\s*(?:AM|PM)?`,
capturing its full text (whitespace and AM/PM marker included, as in the
source capture group). -/
def timeCore : P (List Char) :=
  pbind (digitsRange 1 2) (fun h =>
  pbind (pchar ':') (fun _ =>
  pbind (digitsRange 1 2) (fun m =>
  pbind (popt (pbind (pchar ':') (fun _ => digitsRange 1 2))) (fun sec =>
  pbind (greedyRun isSpaceC 0) (fun sp =>
  pbind (popt (palt (pfixed ['A', 'M']) (pfixed ['P', 'M']))) (fun ap =>
  pret (h ++ ':' :: m ++ (match sec with | some d2 => ':' :: d2 | none => [])
        ++ sp ++ (match ap with | some x => x | none => []))))))))

/-- The lookahead `(?=\n\[\d{1,2}/\d{1,2}/\d{2,4}|$)`: either the next
message marker starts here, or the position is at the end of the input
(`$` without `re.MULTILINE` also matches just before a final newline). -/
def lookaheadOk (s : List Char) : Bool :=
  (match s with
   | '\n' :: '[' :: r => !(dateCore r).isEmpty
   | _ => false)
  || s.isEmpty || s = ['\n']

/-- The four captured groups of one message match. -/
structure RawMatch where
  dateStr : List Char
  timeStr : List Char
  senderStr : List Char
  msgStr : List Char
deriving DecidableEq

/-- The part of the message pattern after the opening bracket. -/
def msgPatternRest : P RawMatch :=
  pbind dateCore (fun ds =>
  pbind (pchar ',') (fun _ =>
  pbind (greedyRun isSpaceC 0) (fun _ =>
  pbind timeCore (fun ts =>
  pbind (pchar ']') (fun _ =>
  pbind (greedyRun isSpaceC 0) (fun _ =>
  pbind (greedyRun (fun c => !(c = ':')) 1) (fun sd =>
  pbind (pchar ':') (fun _ =>
  pbind (greedyRun isSpaceC 0) (fun _ =>
  pbind lazyAny (fun ms =>
  pbind (plook lookaheadOk) (fun _ =>
  pret ⟨ds, ts, sd, ms⟩)))))))))))

/-- The full message pattern. -/
def msgPattern : P RawMatch := pbind (pchar '[') (fun _ => msgPatternRest)

/-- Attempt a match at position `i`; on success return the captures and
the end position of the match. -/
def matchAt (s : List Char) (i : Nat) : Option (RawMatch × Nat) :=
  match msgPattern (s.drop i) with
  | [] => none
  | q :: _ => some (q.1, s.length - q.2.length)

/-- The `re.findall` scan: try each position left to right, resuming
after the end of each match.  Every emitted pair records the match
position.  The pattern always consumes at least the opening bracket, so
`fuel = s.length + 1` never runs out before the scan finishes. -/
def findAllAux (s : List Char) : Nat → Nat → List (Nat × RawMatch)
  | _, 0 => []
  | i, fuel + 1 =>
    if i < s.length then
      match matchAt s i with
      | some (m, j) => (i, m) :: findAllAux s j fuel
      | none => findAllAux s (i + 1) fuel
    else []

/-- All matches of the message pattern, left to right. -/
def findAllMatches (s : List Char) : List (Nat × RawMatch) :=
  findAllAux s 0 (s.length + 1)

/-! ## ChatService -/

namespace ChatService

/-- One extracted chat message, as appended by `process_chat_file`. -/
structure ChatMsgData where
  date_time : DateTime
  sender : List Char
  message : List Char
  file_path : String
deriving DecidableEq

/-- The nested try/except date parsing of `process_chat_file`: try
`%m/%d/%y %H:%M`, then `%d/%m/%y %H:%M`, then `%m/%d/%y %H:%M:%S`, then
`%d/%m/%y %H:%M:%S`; a `ValueError` from the last attempt reaches the
outer handler, which substitutes the current instant `now`. -/
def parse_chat_timestamp (ds ts : List Char) (now : DateTime) : DateTime :=
  let s := ds ++ ' ' :: ts
  match strptime fmtMDYHM s with
  | some d => d
  | none =>
    match strptime fmtDMYHM s with
    | some d => d
    | none =>
      match strptime fmtMDYHMS s with
      | some d => d
      | none =>
        match strptime fmtDMYHMS s with
        | some d => d
        | none => now

/-- Build the record appended for one regex match: timestamp from the
captured date and time, sender and message stripped of whitespace. -/
def extractMsg (m : RawMatch) (now : DateTime) (fp : String) : ChatMsgData :=
  ⟨parse_chat_timestamp m.dateStr m.timeStr now, pstrip m.senderStr, pstrip m.msgStr, fp⟩

/-- Model of `ChatService.process_chat_file` on file text `text`:
find all matches of the message pattern and convert each to a record.
`now` stands for `datetime.utcnow()` at parse-failure time. -/
def process_chat_file (text : List Char) (now : DateTime) (fp : String) :
    List ChatMsgData :=
  (findAllMatches text).map (fun pm => extractMsg pm.2 now fp)

end ChatService

/-! ## Database rows

Stored datetimes are modelled as `Nat` instants (only their order
matters for the claims below; the code sorts ISO-8601 strings of naive
datetimes, which compare exactly as the instants do). -/

/-- A row of the `emails` table. -/
structure EmailRow where
  id : Nat
  sender : String
  recipients : String
  subject : String
  date : Option Nat
  body : String
  email_id : String
deriving DecidableEq

/-- A row of the `chat_logs` table. -/
structure ChatLogRow where
  id : Nat
  date_time : Option Nat
  sender : String
  message : String
  file_path : String
deriving DecidableEq

/-- A row of the `pdfs` table. -/
structure PDFRow where
  id : Nat
  file_name : String
  extracted_text : String
  file_path : String
deriving DecidableEq

/-! ## Timeline aggregation (`generate_timeline_task`) -/

namespace TimelineRoutes

/-- One entry of the `events` list built by `generate_timeline_task`
before calling Gemini: the date (absent for PDFs or undated rows), the
source tag and id, and the remaining dictionary fields as key/value
pairs. -/
structure TLItem where
  date : Option Nat
  source_type : String
  source_id : Nat
  payload : List (String × String)
deriving DecidableEq

/-- Python `body[:500] + "..." if len(body) > 500 else body`. -/
def truncate500 (s : String) : String :=
  if s.length > 500 then s.take 500 ++ "..." else s

/-- Projection of an e-mail row into the common event shape. -/
def emailItem (e : EmailRow) : TLItem :=
  ⟨e.date, "email", e.id,
   [("sender", e.sender), ("recipients", e.recipients), ("subject", e.subject),
    ("content", truncate500 e.body)]⟩

/-- Projection of a chat row into the common event shape. -/
def chatItem (c : ChatLogRow) : TLItem :=
  ⟨c.date_time, "chat", c.id, [("sender", c.sender), ("content", c.message)]⟩

/-- Projection of a PDF row into the common event shape (no date). -/
def pdfItem (p : PDFRow) : TLItem :=
  ⟨none, "pdf", p.id,
   [("file_name", p.file_name), ("content", truncate500 p.extracted_text)]⟩

/-- The merged event list in fetch order: e-mails, then chats, then PDFs. -/
def mergedEvents (emails : List EmailRow) (chats : List ChatLogRow)
    (pdfs : List PDFRow) : List TLItem :=
  emails.map emailItem ++ chats.map chatItem ++ pdfs.map pdfItem

/-- The sort key order used by `dated_events.sort(key=lambda x: x["date"])`
(every element of the dated partition has a date, so the default is
never read). -/
def itemLE (a b : TLItem) : Prop := a.date.getD 0 ≤ b.date.getD 0

instance : DecidableRel itemLE := fun _ _ => Nat.decLe _ _

instance : IsTotal TLItem itemLE := ⟨fun _ _ => Nat.le_total _ _⟩

instance : IsTrans TLItem itemLE := ⟨fun _ _ _ => Nat.le_trans⟩

/-- The aggregation stage of `generate_timeline_task`: partition the
merged list on date presence, stable-sort the dated part ascending and
append the undated part.  Python `list.sort` is a stable sort; we model
it by `List.insertionSort`, which is also stable, and any two stable
sorts by a total transitive key order produce the same list. -/
def generate_timeline_events (emails : List EmailRow) (chats : List ChatLogRow)
    (pdfs : List PDFRow) : List TLItem :=
  let events := mergedEvents emails chats pdfs
  let dated := events.filter (fun e => e.date.isSome)
  let undated := events.filter (fun e => !e.date.isSome)
  dated.insertionSort itemLE ++ undated

end TimelineRoutes

/-! ## EmailService.save_emails -/

namespace EmailService

/-- The dictionary produced by `_parse_message` for one fetched mail. -/
structure EmailData where
  email_id : String
  sender : String
  recipients : String
  subject : String
  date : Option Nat
  body : String
deriving DecidableEq

/-- Row created for a new mail (`nid` models the auto-increment id). -/
def emailRowOf (nid : Nat) (d : EmailData) : EmailRow :=
  ⟨nid, d.sender, d.recipients, d.subject, d.date, d.body, d.email_id⟩

/-- Model of `EmailService.save_emails`: for each fetched mail, look up
its provider message id; append the existing row to the result when
found, otherwise insert a new row.  (The SELECT inside the loop sees
rows added earlier in the same batch, as SQLAlchemy flushes pending
inserts before each query.)  Returns the new table and the list the
function returns. -/
def save_emails : List EmailRow → List EmailData → List EmailRow × List EmailRow
  | db, [] => (db, [])
  | db, d :: ds =>
    match db.find? (fun r => r.email_id == d.email_id) with
    | some r =>
      let q := save_emails db ds
      (q.1, r :: q.2)
    | none =>
      let nr := emailRowOf db.length d
      let q := save_emails (db ++ [nr]) ds
      (q.1, nr :: q.2)

end EmailService

/-! ## PDFService -/

namespace PDFService

/-- The dictionary produced by `process_pdf_file`. -/
structure PDFData where
  file_name : String
  extracted_text : String
  file_path : String
deriving DecidableEq

/-- Model of `PDFService.save_pdf_document`: look up the file path;
return the existing row untouched when found, otherwise insert a new
row and return it.  (The exception branch returns `None` only on a
database failure, which the model leaves out.) -/
def save_pdf_document (db : List PDFRow) (d : PDFData) : List PDFRow × PDFRow :=
  match db.find? (fun r => r.file_path == d.file_path) with
  | some r => (db, r)
  | none =>
    let nr : PDFRow := ⟨db.length, d.file_name, d.extracted_text, d.file_path⟩
    (db ++ [nr], nr)

/-- Filters accepted by `PDFService.get_pdf_documents`.  A `file_path`
entry can be passed but no branch of the function reads it. -/
structure PDFFilters where
  file_name : Option String := none
  content : Option String := none
  file_path : Option String := none
deriving DecidableEq

/-- Substring occurrence test on character lists. -/
def containsSub (hay needle : List Char) : Bool :=
  (List.range (hay.length + 1)).any (fun i => (hay.drop i).take needle.length = needle)

/-- Case-insensitive substring test, modelling SQL `ILIKE '%needle%'`
(ASCII lowercasing). -/
def containsCI (hay needle : String) : Bool :=
  containsSub hay.toLower.toList needle.toLower.toList

/-- Truthiness-guarded ILIKE filter: Python skips the filter when the
value is absent or an empty string. -/
def strFilter (v : Option String) (get : α → String) (db : List α) : List α :=
  match v with
  | some s => if s = "" then db else db.filter (fun r => containsCI (get r) s)
  | none => db

/-- Model of `PDFService.get_pdf_documents`: filter on `file_name` and
`content` only; the `file_path` filter key is silently ignored. -/
def get_pdf_documents (db : List PDFRow) (f : PDFFilters) : List PDFRow :=
  strFilter f.content PDFRow.extracted_text (strFilter f.file_name PDFRow.file_name db)

end PDFService

/-! ## ChatService persistence -/

namespace ChatService

/-- The dictionary shape of one parsed chat message as handed to
`save_chat_messages` (dates already as stored instants). -/
structure ChatData where
  date_time : Option Nat
  sender : String
  message : String
  file_path : String
deriving DecidableEq

/-- Row created for one chat message (`nid` models the auto-increment id). -/
def chatRowOf (nid : Nat) (d : ChatData) : ChatLogRow :=
  ⟨nid, d.date_time, d.sender, d.message, d.file_path⟩

/-- Model of `ChatService.save_chat_messages`: unconditionally insert a
new row per message — there is no duplicate check of any kind.  Returns
the new table and the list of saved rows. -/
def save_chat_messages (db : List ChatLogRow) (msgs : List ChatData) :
    List ChatLogRow × List ChatLogRow :=
  let rows := ((List.range msgs.length).zip msgs).map
    (fun q => chatRowOf (db.length + q.1) q.2)
  (db ++ rows, rows)

/-- The natural content of a chat row (everything except the assigned id). -/
def chatContent (r : ChatLogRow) : Option Nat × String × String × String :=
  (r.date_time, r.sender, r.message, r.file_path)

/-- The natural content of an incoming chat message. -/
def chatDataContent (d : ChatData) : Option Nat × String × String × String :=
  (d.date_time, d.sender, d.message, d.file_path)

/-- Filters accepted by `ChatService.get_chat_messages`.  A `file_path`
entry can be passed but no branch of the function reads it. -/
structure ChatFilters where
  sender : Option String := none
  start_date : Option Nat := none
  end_date : Option Nat := none
  content : Option String := none
  file_path : Option String := none
deriving DecidableEq

/-- Row order used by `ORDER BY date_time` (stored NULLs sort first in
SQLite; `getD 0` places them at the minimum). -/
def chatLE (a b : ChatLogRow) : Prop := a.date_time.getD 0 ≤ b.date_time.getD 0

instance : DecidableRel chatLE := fun _ _ => Nat.decLe _ _

instance : IsTotal ChatLogRow chatLE := ⟨fun _ _ => Nat.le_total _ _⟩

instance : IsTrans ChatLogRow chatLE := ⟨fun _ _ _ => Nat.le_trans⟩

/-- Model of `ChatService.get_chat_messages`: apply the `sender`, date
range and `content` filters when present (and truthy), then order by
`date_time`.  The `file_path` filter key is silently ignored — the
function implements no such filter. -/
def get_chat_messages (db : List ChatLogRow) (f : ChatFilters) : List ChatLogRow :=
  let q1 := PDFService.strFilter f.sender ChatLogRow.sender db
  let q2 := match f.start_date with
    | some d => q1.filter (fun r => d ≤ r.date_time.getD 0)
    | none => q1
  let q3 := match f.end_date with
    | some d => q2.filter (fun r => r.date_time.getD 0 ≤ d)
    | none => q2
  let q4 := PDFService.strFilter f.content ChatLogRow.message q3
  q4.insertionSort chatLE

end ChatService

/-! ## A model of `json.loads`

JSON values as decoded by Python.  Numbers keep a decimal mantissa and
exponent (their exact value is never inspected by the claims); the
nonstandard literals `Infinity`, `-Infinity` and `NaN`, which Python
accepts by default, get their own constructors. -/

inductive Json where
  | null
  | bool (b : Bool)
  | num (mantissa : Int) (exp10 : Int)
  | str (s : String)
  | arr (xs : List Json)
  | obj (kvs : List (String × Json))
  | infv (neg : Bool)
  | nan

/-- Insert a key into a decoded object the way a Python dict does:
replace in place when the key exists, append otherwise. -/
def jinsert : List (String × Json) → String → Json → List (String × Json)
  | [], k, v => [(k, v)]
  | (k', v') :: t, k, v =>
    if k' = k then (k, v) :: t else (k', v') :: jinsert t k v

/-- Dict lookup on decoded key/value pairs. -/
def jget0 : List (String × Json) → String → Option Json
  | [], _ => none
  | (k', v) :: t, k => if k' = k then some v else jget0 t k

/-- Dict lookup on a JSON value (objects only). -/
def jget (j : Json) (k : String) : Option Json :=
  match j with
  | .obj kvs => jget0 kvs k
  | _ => none

/-- JSON whitespace (`json.decoder`: space, tab, newline, return). -/
def isJWs (c : Char) : Bool := c = ' ' || c = '\t' || c = '\n' || c = '\r'

/-- Skip JSON whitespace. -/
def jwsSkip (s : List Char) : List Char := s.dropWhile isJWs

/-- Hex digit value (by character code: 0-9, a-f, A-F). -/
def hexVal (c : Char) : Option Nat :=
  let n := c.toNat
  if 48 ≤ n && n ≤ 57 then some (n - 48)
  else if 97 ≤ n && n ≤ 102 then some (n - 87)
  else if 65 ≤ n && n ≤ 70 then some (n - 55)
  else none

/-- Parse the body of a JSON string after the opening quote; returns the
decoded characters and the rest after the closing quote.  Unescaped
control characters are rejected; `\uXXXX` escapes are decoded to the
scalar value when valid (surrogate pairs are out of this model). -/
def parseJStr : Nat → List Char → Option (List Char × List Char)
  | 0, _ => none
  | _ + 1, [] => none
  | _ + 1, '"' :: r => some ([], r)
  | fuel + 1, '\\' :: e :: r =>
    (match e with
     | '"' => (parseJStr fuel r).map (fun q => ('"' :: q.1, q.2))
     | '\\' => (parseJStr fuel r).map (fun q => ('\\' :: q.1, q.2))
     | '/' => (parseJStr fuel r).map (fun q => ('/' :: q.1, q.2))
     | 'b' => (parseJStr fuel r).map (fun q => ('\x08' :: q.1, q.2))
     | 'f' => (parseJStr fuel r).map (fun q => ('\x0c' :: q.1, q.2))
     | 'n' => (parseJStr fuel r).map (fun q => ('\n' :: q.1, q.2))
     | 'r' => (parseJStr fuel r).map (fun q => ('\r' :: q.1, q.2))
     | 't' => (parseJStr fuel r).map (fun q => ('\t' :: q.1, q.2))
     | 'u' =>
       match r with
       | h1 :: h2 :: h3 :: h4 :: r' =>
         match hexVal h1, hexVal h2, hexVal h3, hexVal h4 with
         | some a, some b, some c, some d =>
           (parseJStr fuel r').map
             (fun q => (Char.ofNat (((a * 16 + b) * 16 + c) * 16 + d) :: q.1, q.2))
         | _, _, _, _ => none
       | _ => none
     | _ => none)
  | fuel + 1, c :: r =>
    if c.toNat < 32 then none
    else (parseJStr fuel r).map (fun q => (c :: q.1, q.2))

/-- Parse a JSON number (`-? (0 | [1-9][0-9]*) (. [0-9]+)? ([eE][+-]?[0-9]+)?`),
returning mantissa and decimal exponent. -/
def parseJNum (s : List Char) : Option (Json × List Char) :=
  let (neg, s1) := match s with
    | '-' :: r => (true, r)
    | _ => (false, s)
  let intDigits := s1.takeWhile isDigitC
  let afterInt := s1.dropWhile isDigitC
  if intDigits.isEmpty then none
  else if intDigits.length > 1 && intDigits.headD '0' = '0' then none
  else
    let (fracDigits, afterFrac) := match afterInt with
      | '.' :: r =>
        let fd := r.takeWhile isDigitC
        if fd.isEmpty then ([], afterInt) else (fd, r.dropWhile isDigitC)
      | _ => ([], afterInt)
    let expPart : Option (Int × List Char) := match afterFrac with
      | 'e' :: r | 'E' :: r =>
        let (eneg, r1) := match r with
          | '+' :: r' => (false, r')
          | '-' :: r' => (true, r')
          | _ => (false, r)
        let ed := r1.takeWhile isDigitC
        if ed.isEmpty then none
        else some ((if eneg then -(natOfDigits ed : Int) else (natOfDigits ed : Int)),
                   r1.dropWhile isDigitC)
      | _ => none
    let mag : Nat := natOfDigits (intDigits ++ fracDigits)
    let mant : Int := if neg then -(mag : Int) else (mag : Int)
    match expPart with
    | some (e, rest) => some (.num mant (e - fracDigits.length), rest)
    | none =>
      if (match afterFrac with | '.' :: _ => fracDigits.isEmpty | _ => false) then none
      else some (.num mant (-(fracDigits.length : Int)), afterFrac)

mutual

/-- Parse one JSON value; `fuel` bounds nesting plus member count and is
always sufficient at `length + 1`. -/
def parseJVal : Nat → List Char → Option (Json × List Char)
  | 0, _ => none
  | fuel + 1, s =>
    match s with
    | [] => none
    | 'n' :: r => if r.take 3 = ['u', 'l', 'l'] then some (.null, r.drop 3) else none
    | 't' :: r => if r.take 3 = ['r', 'u', 'e'] then some (.bool true, r.drop 3) else none
    | 'f' :: r => if r.take 4 = ['a', 'l', 's', 'e'] then some (.bool false, r.drop 4)
        else none
    | 'N' :: r => if r.take 2 = ['a', 'N'] then some (.nan, r.drop 2) else none
    | 'I' :: r => if r.take 7 = ['n', 'f', 'i', 'n', 'i', 't', 'y'] then
        some (.infv false, r.drop 7) else none
    | '"' :: r => (parseJStr (r.length + 1) r).map (fun q => (.str (String.mk q.1), q.2))
    | '{' :: r =>
      (match jwsSkip r with
       | '}' :: r' => some (.obj [], r')
       | r' => parseJMembers fuel r' [])
    | '[' :: r =>
      (match jwsSkip r with
       | ']' :: r' => some (.arr [], r')
       | r' => parseJElems fuel r' [])
    | '-' :: 'I' :: r => if r.take 7 = ['n', 'f', 'i', 'n', 'i', 't', 'y'] then
        some (.infv true, r.drop 7) else none
    | c :: _ => if c = '-' || isDigitC c then parseJNum s else none

/-- Parse the members of an object after `{` (at a key position). -/
def parseJMembers : Nat → List Char → List (String × Json) →
    Option (Json × List Char)
  | 0, _, _ => none
  | fuel + 1, s, acc =>
    match s with
    | '"' :: r =>
      (parseJStr (r.length + 1) r).bind (fun qk =>
        match jwsSkip qk.2 with
        | ':' :: r2 =>
          (parseJVal fuel (jwsSkip r2)).bind (fun qv =>
            let acc' := jinsert acc (String.mk qk.1) qv.1
            match jwsSkip qv.2 with
            | ',' :: r3 => parseJMembers fuel (jwsSkip r3) acc'
            | '}' :: r3 => some (.obj acc', r3)
            | _ => none)
        | _ => none)
    | _ => none

/-- Parse the elements of an array after `[` (at a value position). -/
def parseJElems : Nat → List Char → List Json → Option (Json × List Char)
  | 0, _, _ => none
  | fuel + 1, s, acc =>
    (parseJVal fuel s).bind (fun qv =>
      match jwsSkip qv.2 with
      | ',' :: r2 => parseJElems fuel (jwsSkip r2) (acc ++ [qv.1])
      | ']' :: r2 => some (.arr (acc ++ [qv.1]), r2)
      | _ => none)

end

/-- Model of `json.loads`: parse one value, allowing surrounding
whitespace, and require the whole string to be consumed. -/
def parseJson (s : String) : Option Json :=
  let l := jwsSkip s.toList
  match parseJVal (l.length + 1) l with
  | some (j, r) => if jwsSkip r = [] then some j else none
  | none => none

/-! ## Python value semantics used by the routes -/

/-- Approximate Python `repr` of a decoded JSON value (used only inside
f-strings; no claim inspects its exact text).  Numbers render as
mantissa/exponent, strings quote without escaping. -/
def pyRepr : Json → String
  | .null => "None"
  | .bool true => "True"
  | .bool false => "False"
  | .num m e => toString m ++ "e" ++ toString e
  | .str s => "\x27" ++ s ++ "\x27"
  | .infv true => "-inf"
  | .infv false => "inf"
  | .nan => "nan"
  | .arr xs => "[" ++ String.intercalate ", " (xs.attach.map (fun x => pyRepr x.1)) ++ "]"
  | .obj kvs => "\x7b" ++ String.intercalate ", "
      (kvs.attach.map (fun kv => "\x27" ++ kv.1.1 ++ "\x27: " ++ pyRepr kv.1.2)) ++ "\x7d"
decreasing_by
  · have := List.sizeOf_lt_of_mem x.2
    simp only [Json.arr.sizeOf_spec]
    omega
  · have h1 := List.sizeOf_lt_of_mem kv.2
    have h2 : sizeOf kv.1.2 < sizeOf kv.1 := by
      obtain ⟨k, v⟩ := kv.1
      simp only [Prod.mk.sizeOf_spec]
      omega
    simp only [Json.obj.sizeOf_spec]
    omega

/-- Python `str()` of a decoded JSON value, as interpolated by f-strings. -/
def pyToStr (j : Json) : String :=
  match j with
  | .str s => s
  | _ => pyRepr j

/-- Python `for x in v`: lists iterate their elements, strings their
characters, dicts their keys; everything else raises `TypeError`. -/
def pyIter : Json → Except String (List Json)
  | .arr xs => .ok xs
  | .str s => .ok (s.toList.map (fun c => .str (String.mk [c])))
  | .obj kvs => .ok (kvs.map (fun kv => .str kv.1))
  | _ => .error "TypeError: object is not iterable"

/-- Python `k in v` for a string `k`: key test on dicts, membership on
lists, substring test on strings; `TypeError` otherwise. -/
def pyContains (j : Json) (k : String) : Except String Bool :=
  match j with
  | .obj kvs => .ok (jget0 kvs k).isSome
  | .arr xs => .ok (xs.any (fun x => match x with | .str s => s = k | _ => false))
  | .str s => .ok (PDFService.containsSub s.toList k.toList)
  | _ => .error "TypeError: argument is not iterable"

/-- Python `v[k]` for a string `k`: dict subscription (or `KeyError`);
`TypeError` on any other value. -/
def pySubscript (j : Json) (k : String) : Except String Json :=
  match j with
  | .obj kvs =>
    match jget0 kvs k with
    | some v => .ok v
    | none => .error "KeyError"
  | _ => .error "TypeError: indices must be strings"

/-- Python `v.get(k, dflt)`: only dicts have `get`; anything else raises
`AttributeError`. -/
def pyGetD (j : Json) (k : String) (dflt : Json) : Except String Json :=
  match j with
  | .obj kvs => .ok ((jget0 kvs k).getD dflt)
  | _ => .error "AttributeError: object has no attribute get"

/-! ## LLM services: reply handling

Each service sends a prompt (external call, outside the model) and then
parses the model reply.  We embed the reply-handling stage: the function
from the reply text to the returned dictionary.  A reply that is not
valid JSON never raises — it produces a degraded dictionary carrying the
raw text.  (The separate `except Exception` transport-error branch of
each service is outside these claims.) -/

namespace GeminiService

/-- Reply handling of `GeminiService.generate_timeline`. -/
def generate_timeline (response : String) : Json :=
  match parseJson response with
  | some j => j
  | none => .obj
      [("title", .str "Timeline of Contract Dispute"),
       ("overview", .str "Error parsing structured data"),
       ("raw_response", .str response),
       ("events", .arr [])]

end GeminiService

namespace OpenAIService

/-- Reply handling of `OpenAIService.analyze_evidence`. -/
def analyze_evidence (response : String) : Json :=
  match parseJson response with
  | some j => j
  | none => .obj
      [("summary", .str "Error parsing structured data"),
       ("raw_response", .str response),
       ("key_issues", .arr []),
       ("recommended_evidence", .arr [])]

/-- Reply handling of `OpenAIService.generate_report`. -/
def generate_report (response : String) : Json :=
  match parseJson response with
  | some j => j
  | none => .obj
      [("title", .str "Legal Report"),
       ("executive_summary", .str "Error parsing structured data"),
       ("raw_response", .str response)]

end OpenAIService

/-! ## Timeline lifecycle and event writer (`app/routes/timeline.py`) -/

namespace TimelineRoutes

/-- A value stored in the `description` column: SQLite accepts strings,
numbers and booleans; `None` stores NULL. -/
inductive CellVal
  | strv (s : String)
  | numv (m e : Int)
  | boolv (b : Bool)
  | infcell (neg : Bool)
  | nancell
deriving DecidableEq

/-- The `timelines` row fields the lifecycle touches. -/
structure TimelineRow where
  title : String
  description : Option CellVal
deriving DecidableEq

/-- The placeholder description written synchronously. -/
def timeline_placeholder : String := "Generating timeline... This may take a few minutes."

/-- Synchronous part of `POST /timeline/generate`: create the
placeholder row and return immediately with status `"processing"`. -/
def generate_timeline_endpoint (title : String) : TimelineRow × String :=
  (⟨title, some (.strv timeline_placeholder)⟩, "processing")

/-- The new description computed by `generate_timeline_task` from the
model reply, or the exception it raises: on a dict reply the task stores
`timeline_data.get("overview", "Timeline generated successfully.")`
(`null` stores NULL; a list or dict value makes the database driver
raise); on a non-dict reply `.get` raises `AttributeError`. -/
def timeline_task_body (reply : String) : Except String (Option CellVal) :=
  match GeminiService.generate_timeline reply with
  | .obj kvs =>
    match jget0 kvs "overview" with
    | some .null => .ok none
    | some (.str s) => .ok (some (.strv s))
    | some (.num m e) => .ok (some (.numv m e))
    | some (.bool b) => .ok (some (.boolv b))
    | some (.infv n) => .ok (some (.infcell n))
    | some .nan => .ok (some .nancell)
    | some (.arr _) => .error "InterfaceError: unsupported parameter type"
    | some (.obj _) => .error "InterfaceError: unsupported parameter type"
    | none => .ok (some (.strv "Timeline generated successfully."))
  | _ => .error "AttributeError: object has no attribute get"

/-- Effect of the background task on the timeline row: overwrite the
description with the generated overview on success or with an error
message on any uncaught exception; a missing row is left missing, an
existing row is never deleted. -/
def run_timeline_task (reply : String) (row : Option TimelineRow) : Option TimelineRow :=
  row.map (fun r =>
    { r with description :=
        match timeline_task_body reply with
        | .ok d => d
        | .error e => some (.strv ("Error generating timeline: " ++ e)) })

/-- Python `str.split(sep)` on character lists. -/
def pysplit (sep : Char) : List Char → List (List Char)
  | [] => [[]]
  | c :: r =>
    let rest := pysplit sep r
    if c = sep then [] :: rest
    else (c :: rest.headD []) :: rest.tail

/-- Python `str.isdigit` on ASCII data: nonempty and all digits. -/
def isdigitStr (l : List Char) : Bool := !l.isEmpty && l.all isDigitC

/-- The compound source parsing of `generate_timeline_task` for one
event: `source.split(":")[0]` as the type when the string contains a
colon (`"unknown"` otherwise, also when the key is absent), and
`int(source.split(":")[-1])` as the id when that last segment is all
digits (`0` otherwise). -/
def parse_event_source (src : Option String) : String × Nat :=
  match src with
  | none => ("unknown", 0)
  | some s =>
    let l := s.toList
    let hasColon := l.contains ':'
    let stype := if hasColon then String.mk ((pysplit ':' l).headD []) else "unknown"
    let lastSeg := (pysplit ':' l).getLastD []
    let sid := if hasColon && isdigitStr lastSeg then natOfDigits lastSeg else 0
    (stype, sid)

/-- Parse exactly `n` digits. -/
def parseNDigits (n : Nat) (s : List Char) : Option (Nat × List Char) :=
  let ds := s.take n
  if ds.length = n && ds.all isDigitC then some (natOfDigits ds, s.drop n) else none

/-- Model of `datetime.fromisoformat` on the subset
`YYYY-MM-DD[<sep>HH:MM[:SS[.ffffff]]]` that this pipeline produces. -/
def fromisoformat (str : String) : Option DateTime :=
  let validate : Nat → Nat → Nat → Nat → Nat → Nat → Option DateTime :=
    fun y mo d H M S =>
      if 1 ≤ mo && mo ≤ 12 && 1 ≤ d && d ≤ daysInMonth y mo
          && H ≤ 23 && M ≤ 59 && S ≤ 59 then
        some ⟨y, mo, d, H, M, S⟩
      else none
  let secFrac : Nat → Nat → Nat → Nat → Nat → List Char → Option DateTime :=
    fun y mo d H M s7 =>
      match s7 with
      | [] => validate y mo d H M 0
      | ':' :: s8 =>
        (parseNDigits 2 s8).bind (fun qS =>
          match qS.2 with
          | [] => validate y mo d H M qS.1
          | '.' :: s9 | ',' :: s9 =>
            if (s9.length = 3 || s9.length = 6) && s9.all isDigitC then
              validate y mo d H M qS.1
            else none
          | _ => none)
      | _ => none
  let s := str.toList
  (parseNDigits 4 s).bind (fun qy =>
    match qy.2 with
    | '-' :: s2 =>
      (parseNDigits 2 s2).bind (fun qmo =>
        match qmo.2 with
        | '-' :: s4 =>
          (parseNDigits 2 s4).bind (fun qd =>
            match qd.2 with
            | [] => validate qy.1 qmo.1 qd.1 0 0 0
            | _ :: s6 =>
              (parseNDigits 2 s6).bind (fun qH =>
                match qH.2 with
                | ':' :: s7 =>
                  (parseNDigits 2 s7).bind (fun qM =>
                    secFrac qy.1 qmo.1 qd.1 qH.1 qM.1 qM.2)
                | _ => none))
        | _ => none)
    | _ => none)

/-- The event date parsing of `generate_timeline_task`: ISO-8601 first,
then a plain `%Y-%m-%d`, and on total failure the event keeps no date. -/
def parse_event_date (s : String) : Option DateTime :=
  match fromisoformat s with
  | some d => some d
  | none => strptime fmtYMD s.toList

/-- One event dictionary from the model reply, restricted to the string
fields the writer reads. -/
structure EventData where
  date : Option String
  title : Option String
  description : Option String
  source : Option String
deriving DecidableEq

/-- A row of the `timeline_events` table. -/
structure TLEventRow where
  timeline_id : Nat
  date : Option DateTime
  title : String
  description : String
  source_type : String
  source_id : Nat
deriving DecidableEq

/-- The event writer loop of `generate_timeline_task`: every event
object becomes one row — an unparseable date leaves the date absent and
an unparseable source id defaults to 0, never skipping the event. -/
def write_timeline_events (tlid : Nat) (events : List EventData) : List TLEventRow :=
  events.map (fun ev =>
    { timeline_id := tlid
      date :=
        match ev.date with
        | some ds => if ds = "" then none else parse_event_date ds
        | none => none
      title := ev.title.getD "Untitled Event"
      description := ev.description.getD ""
      source_type := (parse_event_source ev.source).1
      source_id := (parse_event_source ev.source).2 })

end TimelineRoutes

/-! ## Report lifecycle and renderer (`app/routes/report.py`) -/

namespace ReportRoutes

/-- The `reports` row fields the lifecycle touches. -/
structure ReportRow where
  title : String
  content : String
  timeline_id : Option Nat
deriving DecidableEq

/-- An HTTP error response (status code and detail). -/
structure HTTPError where
  status : Nat
  detail : String
deriving DecidableEq

/-- The placeholder content written synchronously. -/
def report_placeholder : String := "Generating report... This may take a few minutes."

/-- Synchronous part of `POST /report/generate`: 404 without creating a
row when the referenced timeline is missing (this route re-raises its
own `HTTPException`), otherwise create the placeholder row and return
with status `"processing"`. -/
def generate_report_endpoint (timeline : Option TimelineRoutes.TimelineRow)
    (timeline_id : Nat) (title : String) :
    Except HTTPError (ReportRow × String) :=
  match timeline with
  | none => .error ⟨404, "Timeline with ID " ++ toString timeline_id ++ " not found"⟩
  | some _ => .ok (⟨title, report_placeholder, some timeline_id⟩, "processing")

/-- A section guarded by `if key in report_data:` whose body renders the
subscripted value. -/
def sectionSimple (rd : Json) (k : String) (render : Json → String) :
    Except String String := do
  let b ← pyContains rd k
  if b then do
    let v ← pySubscript rd k
    pure (render v)
  else pure ""

/-- The Timeline-of-Key-Events section. -/
def renderTimelineSec (rd : Json) : Except String String := do
  let b ← pyContains rd "timeline"
  if b then do
    let v ← pySubscript rd "timeline"
    let items ← pyIter v
    let pieces ← items.mapM (fun ev => do
      let d ← pyGetD ev "date" (.str "Unknown date")
      let t ← pyGetD ev "event" (.str "Untitled event")
      let sg ← pyGetD ev "significance" (.str "")
      pure ("### " ++ pyToStr d ++ ": " ++ pyToStr t ++ "\n\n" ++ pyToStr sg ++ "\n\n"))
    pure ("## Timeline of Key Events\n\n" ++ String.join pieces)
  else pure ""

/-- One entry of the Analysis-of-Key-Issues section. -/
def renderIssue (issue : Json) : Except String String := do
  let t ← pyGetD issue "issue" (.str "Untitled issue")
  let an ← pyGetD issue "analysis" (.str "")
  let se ← pyContains issue "supporting_evidence"
  let sePart ←
    if se then do
      let lst ← pySubscript issue "supporting_evidence"
      let ids ← pyIter lst
      pure ("**Supporting Evidence:**\n\n"
            ++ String.join (ids.map (fun i => "- Evidence ID: " ++ pyToStr i ++ "\n"))
            ++ "\n")
    else pure ""
  pure ("### " ++ pyToStr t ++ "\n\n" ++ pyToStr an ++ "\n\n" ++ sePart)

/-- The Analysis-of-Key-Issues section. -/
def renderKeyIssuesSec (rd : Json) : Except String String := do
  let b ← pyContains rd "key_issues"
  if b then do
    let v ← pySubscript rd "key_issues"
    let items ← pyIter v
    let pieces ← items.mapM renderIssue
    pure ("## Analysis of Key Issues\n\n" ++ String.join pieces)
  else pure ""

/-- The Recommendations section. -/
def renderRecSec (rd : Json) : Except String String := do
  let b ← pyContains rd "recommendations"
  if b then do
    let v ← pySubscript rd "recommendations"
    let items ← pyIter v
    pure ("## Recommendations\n\n"
          ++ String.join (items.map (fun x => "- " ++ pyToStr x ++ "\n")) ++ "\n")
  else pure ""

/-- One entry of the appendix section. -/
def renderAppendixItem (ev : Json) : Except String String := do
  let i ← pyGetD ev "id" (.str "Unknown")
  let t ← pyGetD ev "type" (.str "Unknown")
  let d ← pyGetD ev "description" (.str "")
  let rl ← pyGetD ev "relevance" (.str "")
  pure ("### Evidence " ++ pyToStr i ++ " (" ++ pyToStr t ++ ")\n\n**Description:** "
        ++ pyToStr d ++ "\n\n**Relevance:** " ++ pyToStr rl ++ "\n\n")

/-- The appendix section (guarded by the two containment tests). -/
def renderAppendixSec (rd : Json) : Except String String := do
  let b ← pyContains rd "appendix"
  if b then do
    let a ← pySubscript rd "appendix"
    let b2 ← pyContains a "recommended_evidence_details"
    if b2 then do
      let lst ← pySubscript a "recommended_evidence_details"
      let items ← pyIter lst
      let pieces ← items.mapM renderAppendixItem
      pure ("## Appendix: Recommended Evidence Details\n\n" ++ String.join pieces)
    else pure ""
  else pure ""

/-- The section-emission order of `generate_report_task`: title,
executive summary, background, timeline, key issues, evidence
evaluation, legal implications, recommendations, conclusion, appendix;
an exception anywhere aborts the whole content construction. -/
def render_report (rd : Json) : Except String String := do
  let s1 ← sectionSimple rd "title" (fun v => "# " ++ pyToStr v ++ "\n\n")
  let s2 ← sectionSimple rd "executive_summary"
      (fun v => "## Executive Summary\n\n" ++ pyToStr v ++ "\n\n")
  let s3 ← sectionSimple rd "background"
      (fun v => "## Background and Context\n\n" ++ pyToStr v ++ "\n\n")
  let s4 ← renderTimelineSec rd
  let s5 ← renderKeyIssuesSec rd
  let s6 ← sectionSimple rd "evidence_evaluation"
      (fun v => "## Evaluation of Evidence\n\n" ++ pyToStr v ++ "\n\n")
  let s7 ← sectionSimple rd "legal_implications"
      (fun v => "## Legal Implications\n\n" ++ pyToStr v ++ "\n\n")
  let s8 ← renderRecSec rd
  let s9 ← sectionSimple rd "conclusion"
      (fun v => "## Conclusion\n\n" ++ pyToStr v ++ "\n\n")
  let s10 ← renderAppendixSec rd
  pure (s1 ++ s2 ++ s3 ++ s4 ++ s5 ++ s6 ++ s7 ++ s8 ++ s9 ++ s10)

/-- The content `generate_report_task` computes from a model reply, or
the exception the rendering raises. -/
def report_task_content (reply : String) : Except String String :=
  render_report (OpenAIService.generate_report reply)

/-- Effect of the background task on the report row: overwrite the
content with the rendered report on success or with an error message on
any uncaught exception; the row is never deleted. -/
def run_report_task (reply : String) (row : Option ReportRow) : Option ReportRow :=
  row.map (fun r =>
    { r with content :=
        match report_task_content reply with
        | .ok c => c
        | .error e => "Error generating report: " ++ e })

end ReportRoutes

/-! ## Upload endpoints (`app/routes/upload.py`) -/

/-- Python `str.endswith`, on the character lists of the strings (the
built-in `String.endsWith` does not reduce inside the kernel). -/
def strEndsWith (s suffix : String) : Bool :=
  s.toList.reverse.take suffix.toList.length == suffix.toList.reverse

namespace UploadRoutes

/-- Observable outcome of one upload request: HTTP status, detail text,
and whether the file was stored and the background task scheduled. -/
structure HandlerOutcome where
  status : Nat
  detail : String
  fileWritten : Bool
  taskScheduled : Bool
deriving DecidableEq

/-- Python `str(HTTPException(status, detail))`. -/
def http_exc_str (status : Nat) (detail : String) : String :=
  toString status ++ ": " ++ detail

/-- The `try` body of `upload_chat_log`: the extension check raises
`HTTPException(400, ...)` before the file is written and before the
background task is scheduled; otherwise both effects happen. -/
def upload_chat_log_try (filename : String) : Except (Nat × String) Unit :=
  if !(strEndsWith filename ".txt") then
    .error (400, "Only .txt files are accepted for chat logs")
  else .ok ()

/-- `upload_chat_log` including its catch-all `except Exception` clause,
which catches the 400 `HTTPException` raised by its own body (the route
has no `except HTTPException: raise`) and re-raises it as a 500. -/
def upload_chat_log (filename : String) : HandlerOutcome :=
  match upload_chat_log_try filename with
  | .ok _ => ⟨200, "", true, true⟩
  | .error e => ⟨500, http_exc_str e.1 e.2, false, false⟩

/-- The `try` body of `upload_pdf` (same shape as the chat route). -/
def upload_pdf_try (filename : String) : Except (Nat × String) Unit :=
  if !(strEndsWith filename ".pdf") then
    .error (400, "Only .pdf files are accepted for invoices")
  else .ok ()

/-- `upload_pdf` including its catch-all `except Exception` clause. -/
def upload_pdf (filename : String) : HandlerOutcome :=
  match upload_pdf_try filename with
  | .ok _ => ⟨200, "", true, true⟩
  | .error e => ⟨500, http_exc_str e.1 e.2, false, false⟩

/-- `CHAT_UPLOAD_DIR` from `app/config.py` with the default settings. -/
def CHAT_UPLOAD_DIR : String := "./uploads/chats"

/-- `PDF_UPLOAD_DIR` from `app/config.py` with the default settings. -/
def PDF_UPLOAD_DIR : String := "./uploads/pdfs"

/-- The response of `GET /upload/status/{filename}`. -/
structure StatusResult where
  status : String
  message : String
  count : Option Nat
deriving DecidableEq

/-- Model of `check_upload_status`: for a `.txt` name, query
`get_chat_messages` with a `file_path` filter (which that function
ignores) and report completed with a count when any rows exist; for a
`.pdf` name the same against `get_pdf_documents`; otherwise a 400. -/
def check_upload_status (chats : List ChatLogRow) (pdfs : List PDFRow)
    (filename : String) : Except (Nat × String) StatusResult :=
  if strEndsWith filename ".txt" then
    let result := ChatService.get_chat_messages chats
      { file_path := some (CHAT_UPLOAD_DIR ++ "/" ++ filename) }
    if result.length ≠ 0 then
      .ok ⟨"completed",
           "Chat log processed with " ++ toString result.length ++ " messages extracted",
           some result.length⟩
    else
      .ok ⟨"processing", "File is still being processed or no data was extracted", none⟩
  else if strEndsWith filename ".pdf" then
    let result := PDFService.get_pdf_documents pdfs
      { file_path := some (PDF_UPLOAD_DIR ++ "/" ++ filename) }
    if result.length ≠ 0 then
      .ok ⟨"completed", "PDF processed successfully", none⟩
    else
      .ok ⟨"processing", "File is still being processed or no data was extracted", none⟩
  else .error (400, "Unsupported file type")

end UploadRoutes

/-! ## Remaining definitions used by the statements -/

/-- The dated partition of the merged event list. -/
def datedEvents (emails : List EmailRow) (chats : List ChatLogRow)
    (pdfs : List PDFRow) : List TimelineRoutes.TLItem :=
  (TimelineRoutes.mergedEvents emails chats pdfs).filter (fun e => e.date.isSome)

/-- The undated partition of the merged event list, in original order. -/
def undatedEvents (emails : List EmailRow) (chats : List ChatLogRow)
    (pdfs : List PDFRow) : List TimelineRoutes.TLItem :=
  (TimelineRoutes.mergedEvents emails chats pdfs).filter (fun e => !e.date.isSome)

/-- First non-`none` entry of a list of attempts. -/
def firstSome {α : Type} : List (Option α) → Option α
  | [] => none
  | some a :: _ => some a
  | none :: t => firstSome t

/-- First character of a string, if any. -/
def strHead (s : String) : Option Char := s.data.head?

/-- Spec-side reading (for comparison with the code): the suffix of a
source string after its FIRST colon, as the claim describes it. -/
def specFirstColonSuffix (s : String) : String :=
  String.mk ((s.toList.dropWhile (fun c => !(c = ':'))).drop 1)

/-- Spec-side reading (for comparison with the code): a string that is a
valid integer in the Python `int()` sense — optional surrounding
whitespace, an optional sign, then one or more digits. -/
def specIsValidInteger (s : String) : Bool :=
  let t := pstrip s.toList
  let t2 := match t with
    | '+' :: r => r
    | '-' :: r => r
    | _ => t
  !t2.isEmpty && t2.all isDigitC

/-! # Theorems

## Parser combinator facts -/

/-- A parser never leaves more input than it was given. -/
def PMono {α : Type} (p : P α) : Prop :=
  ∀ s q, q ∈ p s → q.2.length ≤ s.length

theorem pret_mono {α : Type} (a : α) : PMono (pret a) := by
  intro s q hq
  simp only [pret, List.mem_singleton] at hq
  simp [hq]

theorem pbind_mono {α β : Type} {p : P α} {f : α → P β}
    (hp : PMono p) (hf : ∀ a, PMono (f a)) : PMono (pbind p f) := by
  intro s q hq
  simp only [pbind, List.mem_flatMap] at hq
  obtain ⟨a, ha, hq⟩ := hq
  exact le_trans (hf a.1 a.2 q hq) (hp s a ha)

theorem pchar_mono (c : Char) : PMono (pchar c) := by
  intro s q hq
  cases s with
  | nil => simp [pchar] at hq
  | cons x r =>
    simp only [pchar] at hq
    split at hq
    · simp only [List.mem_singleton] at hq
      simp [hq]
    · simp at hq

theorem plook_mono (cond : List Char → Bool) : PMono (plook cond) := by
  intro s q hq
  simp only [plook] at hq
  split at hq
  · simp only [List.mem_singleton] at hq
    simp [hq]
  · simp at hq

theorem pfixed_mono (cs : List Char) : PMono (pfixed cs) := by
  intro s q hq
  simp only [pfixed] at hq
  split at hq
  · simp only [List.mem_singleton] at hq
    simp [hq]
  · simp at hq

theorem popt_mono {α : Type} {p : P α} (hp : PMono p) : PMono (popt p) := by
  intro s q hq
  simp only [popt, List.mem_append, List.mem_map, List.mem_singleton] at hq
  rcases hq with ⟨a, ha, rfl⟩ | rfl
  · exact hp s a ha
  · exact le_refl _

theorem palt_mono {α : Type} {p q : P α} (hp : PMono p) (hq : PMono q) :
    PMono (palt p q) := by
  intro s r hr
  rcases List.mem_append.mp hr with h | h
  · exact hp s r h
  · exact hq s r h

theorem greedyRun_mono (pc : Char → Bool) (minLen : Nat) : PMono (greedyRun pc minLen) := by
  intro s q hq
  simp only [greedyRun, List.mem_map] at hq
  obtain ⟨k, _, rfl⟩ := hq
  simp [List.length_drop]

theorem lazyAny_mono : PMono lazyAny := by
  intro s q hq
  simp only [lazyAny, List.mem_map] at hq
  obtain ⟨k, _, rfl⟩ := hq
  simp [List.length_drop]

theorem digitsRange_mono (lo hi : Nat) : PMono (digitsRange lo hi) := by
  intro s q hq
  simp only [digitsRange, List.mem_map] at hq
  obtain ⟨k, _, rfl⟩ := hq
  simp [List.length_drop]

theorem dateCore_mono : PMono dateCore := by
  unfold dateCore
  refine pbind_mono (digitsRange_mono 1 2) (fun a => ?_)
  refine pbind_mono (pchar_mono '/') (fun _ => ?_)
  refine pbind_mono (digitsRange_mono 1 2) (fun b => ?_)
  refine pbind_mono (pchar_mono '/') (fun _ => ?_)
  exact pbind_mono (digitsRange_mono 2 4) (fun c => pret_mono _)

theorem timeCore_mono : PMono timeCore := by
  unfold timeCore
  refine pbind_mono (digitsRange_mono 1 2) (fun h => ?_)
  refine pbind_mono (pchar_mono ':') (fun _ => ?_)
  refine pbind_mono (digitsRange_mono 1 2) (fun m => ?_)
  refine pbind_mono (popt_mono (pbind_mono (pchar_mono ':')
    (fun _ => digitsRange_mono 1 2))) (fun sec => ?_)
  refine pbind_mono (greedyRun_mono isSpaceC 0) (fun sp => ?_)
  exact pbind_mono (popt_mono (palt_mono (pfixed_mono _) (pfixed_mono _)))
    (fun ap => pret_mono _)

theorem msgPatternRest_mono : PMono msgPatternRest := by
  unfold msgPatternRest
  refine pbind_mono dateCore_mono (fun ds => ?_)
  refine pbind_mono (pchar_mono ',') (fun _ => ?_)
  refine pbind_mono (greedyRun_mono isSpaceC 0) (fun _ => ?_)
  refine pbind_mono timeCore_mono (fun ts => ?_)
  refine pbind_mono (pchar_mono ']') (fun _ => ?_)
  refine pbind_mono (greedyRun_mono isSpaceC 0) (fun _ => ?_)
  refine pbind_mono (greedyRun_mono _ 1) (fun sd => ?_)
  refine pbind_mono (pchar_mono ':') (fun _ => ?_)
  refine pbind_mono (greedyRun_mono isSpaceC 0) (fun _ => ?_)
  refine pbind_mono lazyAny_mono (fun ms => ?_)
  exact pbind_mono (plook_mono _) (fun _ => pret_mono _)

/-- The full message pattern always consumes at least the opening
bracket. -/
theorem msgPattern_consumes (s : List Char) (q : RawMatch × List Char)
    (hq : q ∈ msgPattern s) : q.2.length < s.length := by
  simp only [msgPattern, pbind, List.mem_flatMap] at hq
  obtain ⟨a, ha, hq⟩ := hq
  cases s with
  | nil => simp [pchar] at ha
  | cons x r =>
    simp only [pchar] at ha
    split at ha
    · simp only [List.mem_singleton] at ha
      subst ha
      have := msgPatternRest_mono r q hq
      simp only [List.length_cons]
      omega
    · simp at ha

/-- A successful match at `i < length` ends strictly after `i`. -/
theorem matchAt_bounds {s : List Char} {i j : Nat} {m : RawMatch}
    (hi : i < s.length) (h : matchAt s i = some (m, j)) : i < j ∧ j ≤ s.length := by
  unfold matchAt at h
  cases hp : msgPattern (s.drop i) with
  | nil => rw [hp] at h; exact absurd h (by simp)
  | cons q rest =>
    rw [hp] at h
    have hq : q ∈ msgPattern (s.drop i) := by rw [hp]; exact List.mem_cons_self _ _
    have hcons := msgPattern_consumes _ q hq
    rw [List.length_drop] at hcons
    simp only [Option.some.injEq, Prod.mk.injEq] at h
    omega

/-- Every position emitted by the scan is at least the start position. -/
theorem findAllAux_pos_ge (s : List Char) :
    ∀ fuel i p, p ∈ findAllAux s i fuel → i ≤ p.1 := by
  intro fuel
  induction fuel with
  | zero => intro i p hp; simp [findAllAux] at hp
  | succ n ih =>
    intro i p hp
    simp only [findAllAux] at hp
    split at hp
    · rename_i hlt
      cases hm : matchAt s i with
      | some q =>
        rw [hm] at hp
        rcases List.mem_cons.mp hp with rfl | hp'
        · exact le_refl _
        · have hj := matchAt_bounds hlt (by rw [hm])
          have := ih q.2 p hp'
          omega
      | none =>
        rw [hm] at hp
        have := ih (i + 1) p hp
        omega
    · simp at hp

/-- The scan emits matches at strictly increasing positions. -/
theorem findAllAux_pairwise (s : List Char) :
    ∀ fuel i, List.Pairwise (fun a b => a.1 < b.1) (findAllAux s i fuel) := by
  intro fuel
  induction fuel with
  | zero => intro i; simp [findAllAux]
  | succ n ih =>
    intro i
    simp only [findAllAux]
    split
    · rename_i hlt
      cases hm : matchAt s i with
      | some q =>
        refine List.Pairwise.cons ?_ (ih q.2)
        intro b hb
        have hj := matchAt_bounds hlt (by rw [hm])
        have := findAllAux_pos_ge s n q.2 b hb
        omega
      | none => exact ih (i + 1)
    · exact List.Pairwise.nil

/-! ## Claim C9 -/

/-- C9 (amended): for every chat-log input, `process_chat_file` returns
exactly one record per regex match, and the matches — hence the
extracted messages — occur at strictly increasing positions of the
source file, i.e. messages appear in source-file order.  (The original
claim also asserted non-empty sender and message text after trimming;
that part is false, see the counterexample.) -/
theorem chat_messages_in_file_order (text : List Char) (now : DateTime) (fp : String) :
    ChatService.process_chat_file text now fp
        = (findAllMatches text).map (fun pm => ChatService.extractMsg pm.2 now fp)
      ∧ List.Pairwise (· < ·) ((findAllMatches text).map Prod.fst) := by
  refine ⟨rfl, ?_⟩
  exact List.Pairwise.map Prod.fst (fun a b h => h) (findAllAux_pairwise text _ 0)

/-- C9 counterexample: the line `[1/2/24, 10:30] Alice:` matches the
message pattern with an empty message body, so the extracted record's
message text is empty after trimming — refuting the non-emptiness part
of the claim at a concrete input. -/
theorem chat_message_empty_after_strip :
    (ChatService.process_chat_file ("[1/2/24, 10:30] Alice:".toList)
        ⟨1970, 1, 1, 0, 0, 0⟩ "f").map
        (fun m => (String.mk m.sender, String.mk m.message))
      = [("Alice", "")] := by
  decide

/-! ## Claim C5 -/

/-- C5: for every matched `[date, time]` marker, the timestamp parser
tries exactly the four formats m/d/y-with-minutes, d/m/y-with-minutes,
m/d/y-with-seconds, d/m/y-with-seconds in that order — the result is the
first success, and `now` when all four fail; and no message is ever
dropped: `process_chat_file` returns exactly one record per match. -/
theorem chat_timestamp_four_formats (ds ts : List Char) (now : DateTime) :
    ChatService.parse_chat_timestamp ds ts now
        = (firstSome
            [strptime fmtMDYHM (ds ++ ' ' :: ts),
             strptime fmtDMYHM (ds ++ ' ' :: ts),
             strptime fmtMDYHMS (ds ++ ' ' :: ts),
             strptime fmtDMYHMS (ds ++ ' ' :: ts)]).getD now
      ∧ ∀ (text : List Char) (fp : String),
          (ChatService.process_chat_file text now fp).length
            = (findAllMatches text).length := by
  constructor
  · unfold ChatService.parse_chat_timestamp
    cases h1 : strptime fmtMDYHM (ds ++ ' ' :: ts) with
    | some d => simp [firstSome, h1]
    | none =>
      cases h2 : strptime fmtDMYHM (ds ++ ' ' :: ts) with
      | some d => simp [firstSome, h1, h2]
      | none =>
        cases h3 : strptime fmtMDYHMS (ds ++ ' ' :: ts) with
        | some d => simp [firstSome, h1, h2, h3]
        | none =>
          cases h4 : strptime fmtDMYHMS (ds ++ ' ' :: ts) with
          | some d => simp [firstSome, h1, h2, h3, h4]
          | none => simp [firstSome, h1, h2, h3, h4]
  · intro text fp
    simp [ChatService.process_chat_file]

/-! ## Claim C4 -/

/-- C4: evaluating the chat ingestor on the scenario-1 file.  Two
records are produced and Bob's is dated 2024-01-03T09:15 as the claim
says, but Alice's `10:30 AM` time fails all four strptime formats (none
of them accepts the AM/PM marker the regex deliberately captures), so
her record gets the current instant — here the epoch passed as `now` —
instead of the claimed 2024-01-02T10:30. -/
theorem scenario1_chat_ingestion_eval :
    ChatService.process_chat_file
        ("[1/2/24, 10:30 AM] Alice: Hello\n[1/3/24, 9:15] Bob: Reply".toList)
        ⟨1970, 1, 1, 0, 0, 0⟩ "f"
      = [⟨⟨1970, 1, 1, 0, 0, 0⟩, "Alice".toList, "Hello".toList, "f"⟩,
         ⟨⟨2024, 1, 3, 9, 15, 0⟩, "Bob".toList, "Reply".toList, "f"⟩] := by
  decide

/-! ## Claim C1 -/

/-- C1: the aggregation stage partitions the merged event list into
dated and undated parts, stable-sorts only the dated part ascending by
timestamp and concatenates dated-then-undated; the dated prefix is
sorted and is a permutation of the dated partition, the undated tail
keeps the original order (it is a sublist of the merged list), every
PDF-derived item lies in the undated tail (hence after every dated
item), and two items with equal timestamps keep their original relative
order — all regardless of input ordering. -/
theorem timeline_aggregation_ordering (emails : List EmailRow)
    (chats : List ChatLogRow) (pdfs : List PDFRow) :
    TimelineRoutes.generate_timeline_events emails chats pdfs
        = (datedEvents emails chats pdfs).insertionSort TimelineRoutes.itemLE
          ++ undatedEvents emails chats pdfs
      ∧ List.Sorted TimelineRoutes.itemLE
          ((datedEvents emails chats pdfs).insertionSort TimelineRoutes.itemLE)
      ∧ ((datedEvents emails chats pdfs).insertionSort TimelineRoutes.itemLE).Perm
          (datedEvents emails chats pdfs)
      ∧ List.Sublist (undatedEvents emails chats pdfs)
          (TimelineRoutes.mergedEvents emails chats pdfs)
      ∧ (∀ p ∈ pdfs, TimelineRoutes.pdfItem p ∈ undatedEvents emails chats pdfs)
      ∧ (∀ a b : TimelineRoutes.TLItem, a.date = b.date →
          List.Sublist [a, b] (datedEvents emails chats pdfs) →
          List.Sublist [a, b]
            ((datedEvents emails chats pdfs).insertionSort TimelineRoutes.itemLE)) := by
  refine ⟨rfl, ?_, ?_, ?_, ?_, ?_⟩
  · exact List.sorted_insertionSort TimelineRoutes.itemLE _
  · exact List.perm_insertionSort TimelineRoutes.itemLE _
  · exact List.filter_sublist _
  · intro p hp
    refine List.mem_filter.mpr ⟨?_, by simp [TimelineRoutes.pdfItem]⟩
    unfold TimelineRoutes.mergedEvents
    exact List.mem_append.mpr (Or.inr (List.mem_map.mpr ⟨p, hp, rfl⟩))
  · intro a b hd hsub
    refine List.pair_sublist_insertionSort ?_ hsub
    unfold TimelineRoutes.itemLE
    rw [hd]

/-- C1 witness: at the scenario-2 inputs (one e-mail dated 1, one chat
dated 2, one PDF) the output is exactly e-mail, chat, PDF; the PDF item
is in the undated tail; and two e-mails with equal dates stay in their
original order inside the sorted dated prefix. -/
theorem timeline_aggregation_ordering_witness :
    TimelineRoutes.generate_timeline_events
        [⟨1, "a", "b", "s", some 1, "body", "m1"⟩]
        [⟨1, some 2, "al", "hi", "f"⟩]
        [⟨1, "inv.pdf", "txt", "p"⟩]
      = [TimelineRoutes.emailItem ⟨1, "a", "b", "s", some 1, "body", "m1"⟩,
         TimelineRoutes.chatItem ⟨1, some 2, "al", "hi", "f"⟩,
         TimelineRoutes.pdfItem ⟨1, "inv.pdf", "txt", "p"⟩]
    ∧ TimelineRoutes.pdfItem ⟨1, "inv.pdf", "txt", "p"⟩
        ∈ undatedEvents
            [⟨1, "a", "b", "s", some 1, "body", "m1"⟩]
            [⟨1, some 2, "al", "hi", "f"⟩]
            [⟨1, "inv.pdf", "txt", "p"⟩]
    ∧ List.Sublist
        [TimelineRoutes.emailItem ⟨1, "x", "y", "s1", some 5, "b1", "mA"⟩,
         TimelineRoutes.emailItem ⟨2, "x", "y", "s2", some 5, "b2", "mB"⟩]
        ((datedEvents
            [⟨1, "x", "y", "s1", some 5, "b1", "mA"⟩,
             ⟨2, "x", "y", "s2", some 5, "b2", "mB"⟩] [] []).insertionSort
          TimelineRoutes.itemLE) := by
  refine ⟨by decide, ?_, ?_⟩
  · exact (timeline_aggregation_ordering
      [⟨1, "a", "b", "s", some 1, "body", "m1"⟩]
      [⟨1, some 2, "al", "hi", "f"⟩]
      [⟨1, "inv.pdf", "txt", "p"⟩]).2.2.2.2.1
      ⟨1, "inv.pdf", "txt", "p"⟩ (by decide)
  · exact (timeline_aggregation_ordering
      [⟨1, "x", "y", "s1", some 5, "b1", "mA"⟩,
       ⟨2, "x", "y", "s2", some 5, "b2", "mB"⟩] [] []).2.2.2.2.2
      (TimelineRoutes.emailItem ⟨1, "x", "y", "s1", some 5, "b1", "mA"⟩)
      (TimelineRoutes.emailItem ⟨2, "x", "y", "s2", some 5, "b2", "mB"⟩)
      rfl (by decide)

/-! ## Claim C7 -/

/-- Helper: `save_emails` never changes the number of rows carrying a
message id that is already present in the table. -/
theorem save_emails_count_preserved (mid : String) :
    ∀ (ds : List EmailService.EmailData) (db : List EmailRow),
      (∃ r ∈ db, r.email_id = mid) →
      (EmailService.save_emails db ds).1.countP (fun r => r.email_id == mid)
        = db.countP (fun r => r.email_id == mid) := by
  intro ds
  induction ds with
  | nil => intro db _; rfl
  | cons d t ih =>
    intro db h
    cases hf : db.find? (fun r => r.email_id == d.email_id) with
    | some r =>
      simp only [EmailService.save_emails, hf]
      exact ih db h
    | none =>
      simp only [EmailService.save_emails, hf]
      obtain ⟨r0, hr0, hr0id⟩ := h
      have hall := List.find?_eq_none.mp hf
      have hne : d.email_id ≠ mid := by
        intro hcontra
        exact absurd (by simp [hr0id, hcontra]) (hall r0 hr0)
      have hmem : ∃ r ∈ db ++ [EmailService.emailRowOf db.length d], r.email_id = mid :=
        ⟨r0, List.mem_append.mpr (Or.inl hr0), hr0id⟩
      rw [ih _ hmem, List.countP_append]
      simp [EmailService.emailRowOf, hne]

/-- Helper: the rows built by `save_chat_messages` carry exactly the
incoming message contents, whatever ids get assigned. -/
theorem zip_row_content (base : Nat) :
    ∀ (msgs : List ChatService.ChatData) (l : List Nat), l.length = msgs.length →
      ((l.zip msgs).map
          (fun q => ChatService.chatContent (ChatService.chatRowOf (base + q.1) q.2)))
        = msgs.map ChatService.chatDataContent := by
  intro msgs
  induction msgs with
  | nil => intro l _; simp
  | cons m t ih =>
    intro l hl
    cases l with
    | nil => simp at hl
    | cons x xs =>
      simp only [List.zip_cons_cons, List.map_cons]
      rw [ih xs (by simpa using hl)]
      rfl

/-- C7: saving is idempotent per natural key for mail and PDF but not
for chat.  For a message id already in the table, `save_emails` adds no
row with that id, and a singleton batch returns exactly the existing row
with the table unchanged; for a stored file path, `save_pdf_document`
returns the table unchanged together with the existing row untouched;
`save_chat_messages` always appends one fresh row per message — saving
the same messages again inserts content-identical duplicate rows. -/
theorem save_operations_idempotence :
    (∀ (db : List EmailRow) (ds : List EmailService.EmailData) (mid : String),
        (∃ r ∈ db, r.email_id = mid) →
        (EmailService.save_emails db ds).1.countP (fun r => r.email_id == mid)
          = db.countP (fun r => r.email_id == mid))
    ∧ (∀ (db : List EmailRow) (d : EmailService.EmailData) (r : EmailRow),
        db.find? (fun q => q.email_id == d.email_id) = some r →
        EmailService.save_emails db [d] = (db, [r]))
    ∧ (∀ (db : List PDFRow) (d : PDFService.PDFData) (r : PDFRow),
        db.find? (fun q => q.file_path == d.file_path) = some r →
        PDFService.save_pdf_document db d = (db, r))
    ∧ (∀ (db : List ChatLogRow) (msgs : List ChatService.ChatData),
        (ChatService.save_chat_messages db msgs).1
            = db ++ (ChatService.save_chat_messages db msgs).2
          ∧ (ChatService.save_chat_messages db msgs).2.map ChatService.chatContent
            = msgs.map ChatService.chatDataContent) := by
  refine ⟨?_, ?_, ?_, ?_⟩
  · intro db ds mid h
    exact save_emails_count_preserved mid ds db h
  · intro db d r hf
    simp [EmailService.save_emails, hf]
  · intro db d r hf
    simp [PDFService.save_pdf_document, hf]
  · intro db msgs
    refine ⟨rfl, ?_⟩
    simp only [ChatService.save_chat_messages, List.map_map]
    exact zip_row_content db.length msgs (List.range msgs.length)
      (by simp)

/-- C7 witness: re-saving the stored mail id `m1` leaves the table at
one `m1` row and returns the existing row; re-saving the stored PDF path
`pa` returns the table and existing row unchanged; saving one chat
message twice appends a content-identical row both times. -/
theorem save_operations_idempotence_witness :
    ((EmailService.save_emails [⟨0, "s", "r", "j", some 1, "b", "m1"⟩]
        [⟨"m1", "s2", "r2", "j2", some 2, "b2"⟩]).1.countP
        (fun r => r.email_id == "m1")
      = [(⟨0, "s", "r", "j", some 1, "b", "m1"⟩ : EmailRow)].countP
        (fun r => r.email_id == "m1"))
    ∧ EmailService.save_emails [⟨0, "s", "r", "j", some 1, "b", "m1"⟩]
        [⟨"m1", "s2", "r2", "j2", some 2, "b2"⟩]
      = ([⟨0, "s", "r", "j", some 1, "b", "m1"⟩], [⟨0, "s", "r", "j", some 1, "b", "m1"⟩])
    ∧ PDFService.save_pdf_document [⟨0, "a.pdf", "t", "pa"⟩] ⟨"a2.pdf", "t2", "pa"⟩
      = ([⟨0, "a.pdf", "t", "pa"⟩], ⟨0, "a.pdf", "t", "pa"⟩)
    ∧ (ChatService.save_chat_messages [] [⟨some 5, "A", "hi", "f"⟩]).1
        = [] ++ (ChatService.save_chat_messages [] [⟨some 5, "A", "hi", "f"⟩]).2 := by
  refine ⟨?_, ?_, ?_, ?_⟩
  · exact save_operations_idempotence.1 [⟨0, "s", "r", "j", some 1, "b", "m1"⟩]
      [⟨"m1", "s2", "r2", "j2", some 2, "b2"⟩] "m1"
      ⟨⟨0, "s", "r", "j", some 1, "b", "m1"⟩, by decide, rfl⟩
  · exact save_operations_idempotence.2.1 [⟨0, "s", "r", "j", some 1, "b", "m1"⟩]
      ⟨"m1", "s2", "r2", "j2", some 2, "b2"⟩ ⟨0, "s", "r", "j", some 1, "b", "m1"⟩
      (by decide)
  · exact save_operations_idempotence.2.2.1 [⟨0, "a.pdf", "t", "pa"⟩]
      ⟨"a2.pdf", "t2", "pa"⟩ ⟨0, "a.pdf", "t", "pa"⟩ (by decide)
  · exact (save_operations_idempotence.2.2.2 [] [⟨some 5, "A", "hi", "f"⟩]).1


/-! ## Claim C8 -/

/-- Helper: the first segment of a Python split is the prefix before the
first separator. -/
theorem pysplit_headD (sep : Char) :
    ∀ l, (TimelineRoutes.pysplit sep l).headD [] = l.takeWhile (fun c => !(c = sep)) := by
  intro l
  induction l with
  | nil => rfl
  | cons c r ih =>
    by_cases h : c = sep
    · simp [TimelineRoutes.pysplit, h, List.takeWhile_cons]
    · have hd : decide (c = sep) = false := decide_eq_false h
      simp only [TimelineRoutes.pysplit, if_neg h, List.headD_cons, List.takeWhile_cons,
        hd, Bool.not_false, if_true]
      exact congrArg (fun ll => c :: ll) ih

/-- Helper: appending one non-separator character extends the last
segment of a Python split. -/
theorem pysplit_snoc {x sep : Char} (hx : ¬ x = sep) :
    ∀ xs, ∃ init last, TimelineRoutes.pysplit sep xs = init ++ [last]
      ∧ TimelineRoutes.pysplit sep (xs ++ [x]) = init ++ [last ++ [x]] := by
  intro xs
  induction xs with
  | nil => exact ⟨[], [], rfl, by simp [TimelineRoutes.pysplit, hx]⟩
  | cons c t ih =>
    obtain ⟨init, last, h1, h2⟩ := ih
    by_cases hc : c = sep
    · refine ⟨[] :: init, last, ?_, ?_⟩
      · simp only [TimelineRoutes.pysplit, if_pos hc, h1]
        rfl
      · simp only [List.cons_append, TimelineRoutes.pysplit, if_pos hc, List.append_eq, h2]
    · cases init with
      | nil =>
        refine ⟨[], c :: last, ?_, ?_⟩
        · simp [TimelineRoutes.pysplit, hc, h1]
        · simp only [List.cons_append, TimelineRoutes.pysplit, if_neg hc, List.append_eq, h2]
          simp
      | cons a t2 =>
        refine ⟨(c :: a) :: t2, last, ?_, ?_⟩
        · simp [TimelineRoutes.pysplit, hc, h1]
        · simp only [List.cons_append, TimelineRoutes.pysplit, if_neg hc, List.append_eq, h2]
          cases t2 with
          | nil => simp
          | cons b t3 => simp

/-- Helper: splitting a string that ends with the separator adds one
empty final segment. -/
theorem pysplit_snoc_sep (sep : Char) :
    ∀ xs, TimelineRoutes.pysplit sep (xs ++ [sep])
      = TimelineRoutes.pysplit sep xs ++ [[]] := by
  intro xs
  induction xs with
  | nil => simp [TimelineRoutes.pysplit]
  | cons c t ih =>
    by_cases hc : c = sep
    · simp only [List.cons_append, TimelineRoutes.pysplit, if_pos hc, List.append_eq, ih]
    · simp only [List.cons_append, TimelineRoutes.pysplit, if_neg hc, List.append_eq, ih]
      have hne : TimelineRoutes.pysplit sep t ≠ [] := by
        cases t with
        | nil => simp [TimelineRoutes.pysplit]
        | cons b t3 =>
          simp only [TimelineRoutes.pysplit]
          split <;> simp
      obtain ⟨a, t2, ha⟩ := List.exists_cons_of_ne_nil hne
      simp [ha]

/-- Helper: the last segment of a Python split is the reversed longest
non-separator suffix — the text after the LAST separator. -/
theorem pysplit_getLastD (sep : Char) (l : List Char) :
    (TimelineRoutes.pysplit sep l).getLastD []
      = (l.reverse.takeWhile (fun c => !(c = sep))).reverse := by
  induction l using List.reverseRecOn with
  | nil => rfl
  | append_singleton xs x ih =>
    by_cases h : x = sep
    · subst h
      rw [pysplit_snoc_sep]
      simp [List.getLastD_concat, List.takeWhile_cons]
    · obtain ⟨init, last, h1, h2⟩ := pysplit_snoc h xs
      have hlast : last = (xs.reverse.takeWhile (fun c => !(c = sep))).reverse := by
        rw [← ih, h1]
        simp [List.getLastD_concat]
      rw [h2]
      have hd : decide (x = sep) = false := decide_eq_false h
      simp [List.getLastD_concat, List.takeWhile_cons, hd, hlast]

/-- C8 (amended): for every event object, the writer takes the prefix
before the FIRST colon as `sourceType` (`"unknown"` when the source
string is missing or has no colon, with `sourceId` 0); `sourceId` is
read from the segment after the LAST colon — not from the first-colon
suffix as the claim says — and defaults to 0 when that segment is not
all digits; and every event is stored rather than rejected. -/
theorem event_source_parsing (s : String) :
    TimelineRoutes.parse_event_source none = ("unknown", 0)
    ∧ (s.toList.contains ':' = false →
        TimelineRoutes.parse_event_source (some s) = ("unknown", 0))
    ∧ (s.toList.contains ':' = true →
        (TimelineRoutes.parse_event_source (some s)).1
          = String.mk (s.toList.takeWhile (fun c => !(c = ':'))))
    ∧ (s.toList.contains ':' = true →
        (TimelineRoutes.parse_event_source (some s)).2
          = (if TimelineRoutes.isdigitStr
                ((s.toList.reverse.takeWhile (fun c => !(c = ':'))).reverse) then
              natOfDigits ((s.toList.reverse.takeWhile (fun c => !(c = ':'))).reverse)
            else 0))
    ∧ (∀ (tlid : Nat) (events : List TimelineRoutes.EventData),
        (TimelineRoutes.write_timeline_events tlid events).length = events.length) := by
  refine ⟨rfl, ?_, ?_, ?_, ?_⟩
  · intro h
    have h' : ¬ (':' ∈ s.data) := by simpa [String.toList] using h
    simp [TimelineRoutes.parse_event_source, h']
  · intro h
    simp only [TimelineRoutes.parse_event_source, h, if_true]
    rw [pysplit_headD]
  · intro h
    simp only [TimelineRoutes.parse_event_source, h, Bool.true_and]
    rw [pysplit_getLastD]
  · intro tlid events
    simp [TimelineRoutes.write_timeline_events]

/-- C8 counterexample: at source `"email:12:34"` the suffix after the
first colon is `"12:34"`, which is not a valid integer, yet the stored
`sourceId` is 34 rather than the claimed default 0 — the code reads the
segment after the LAST colon. -/
theorem event_source_first_colon_refuted :
    specFirstColonSuffix "email:12:34" = "12:34"
    ∧ specIsValidInteger "12:34" = false
    ∧ TimelineRoutes.parse_event_source (some "email:12:34") = ("email", 34)
    ∧ (TimelineRoutes.parse_event_source (some "email:12:34")).2 ≠ 0 := by
  decide

/-- C8 witness: the amended characterization applied at the concrete
sources `"email:7"` (colon present, digit suffix) and `"nocolon"`. -/
theorem event_source_parsing_witness :
    (TimelineRoutes.parse_event_source (some "email:7")).1
        = String.mk ("email:7".toList.takeWhile (fun c => !(c = ':')))
    ∧ (TimelineRoutes.parse_event_source (some "email:7")).2
        = (if TimelineRoutes.isdigitStr
              (("email:7".toList.reverse.takeWhile (fun c => !(c = ':'))).reverse) then
            natOfDigits (("email:7".toList.reverse.takeWhile (fun c => !(c = ':'))).reverse)
          else 0)
    ∧ TimelineRoutes.parse_event_source (some "nocolon") = ("unknown", 0) := by
  refine ⟨?_, ?_, ?_⟩
  · exact (event_source_parsing "email:7").2.2.1 (by decide)
  · exact (event_source_parsing "email:7").2.2.2.1 (by decide)
  · exact (event_source_parsing "nocolon").2.1 (by decide)

/-! ## Claim C10 -/

/-- C10: for a `.txt` filename, the status endpoint passes only a
`file_path` filter, which `get_chat_messages` does not implement and
silently ignores — the query equals the unfiltered query; consequently
the endpoint reports `"completed"` (with the total message count) if and
only if at least one chat row exists anywhere in the database, and the
response does not depend on which `.txt` filename is asked about. -/
theorem upload_status_ignores_file_path (chats : List ChatLogRow) (pdfs : List PDFRow)
    (filename : String) (h : strEndsWith filename ".txt" = true) :
    (∀ p : String,
        ChatService.get_chat_messages chats { file_path := some p }
          = ChatService.get_chat_messages chats {})
    ∧ (∃ r : UploadRoutes.StatusResult,
        UploadRoutes.check_upload_status chats pdfs filename = .ok r
        ∧ (r.status = "completed" ↔ chats ≠ [])
        ∧ (chats ≠ [] → r.count = some chats.length))
    ∧ (∀ f2 : String, strEndsWith f2 ".txt" = true →
        UploadRoutes.check_upload_status chats pdfs f2
          = UploadRoutes.check_upload_status chats pdfs filename) := by
  have hres : ∀ p : String,
      (ChatService.get_chat_messages chats { file_path := some p }).length
        = chats.length := by
    intro p
    simp [ChatService.get_chat_messages, PDFService.strFilter, List.length_insertionSort]
  refine ⟨fun p => rfl, ?_, ?_⟩
  · simp only [UploadRoutes.check_upload_status, h, if_true]
    by_cases hch : chats = []
    · subst hch
      simp only [hres, List.length_nil]
      refine ⟨_, rfl, ?_, ?_⟩
      · constructor
        · intro habs
          exact absurd habs (by decide)
        · intro habs
          exact absurd rfl habs
      · intro habs
        exact absurd rfl habs
    · have hlen : (ChatService.get_chat_messages chats
          { file_path := some (UploadRoutes.CHAT_UPLOAD_DIR ++ "/" ++ filename) }).length
          ≠ 0 := by
        rw [hres]
        have := List.length_pos.mpr hch
        omega
      simp only [if_pos hlen]
      exact ⟨_, rfl, by simp [hch], fun _ => by rw [hres]⟩
  · intro f2 h2
    simp only [UploadRoutes.check_upload_status, h, h2, if_true]
    rfl

/-- C10 witness: a database holding one chat row ingested from
`other_ab.txt` makes the status query for the unrelated name `mine.txt`
report completed with count 1. -/
theorem upload_status_ignores_file_path_witness :
    ∃ r : UploadRoutes.StatusResult,
      UploadRoutes.check_upload_status
          [⟨1, some 5, "A", "hi", "./uploads/chats/other_ab.txt"⟩] [] "mine.txt"
        = .ok r ∧ r.status = "completed" ∧ r.count = some 1 := by
  obtain ⟨r, hr, hiff, hcount⟩ :=
    (upload_status_ignores_file_path
      [⟨1, some 5, "A", "hi", "./uploads/chats/other_ab.txt"⟩] [] "mine.txt"
      (by decide)).2.1
  exact ⟨r, hr, hiff.mpr (by decide), hcount (by decide)⟩

/-! ## Claim C6 -/

/-- C6: the upload endpoints do reject a bad extension before any file
is written and before any background task is scheduled — but the
response is a 500 server error, not the claimed 4xx client error: the
route's own `HTTPException(400, ...)` is caught by its catch-all
`except Exception` clause and re-raised as
`HTTPException(500, str(e))`.  Valid extensions proceed normally. -/
theorem upload_bad_extension_eval :
    UploadRoutes.upload_chat_log "evidence.docx"
        = ⟨500, "400: Only .txt files are accepted for chat logs", false, false⟩
    ∧ UploadRoutes.upload_pdf "scan.txt"
        = ⟨500, "400: Only .pdf files are accepted for invoices", false, false⟩
    ∧ UploadRoutes.upload_chat_log "chat.txt" = ⟨200, "", true, true⟩
    ∧ UploadRoutes.upload_pdf "invoice.pdf" = ⟨200, "", true, true⟩ := by
  decide

/-! ## Claim C2 -/

/-- C2: for every model reply that is not valid JSON, the three reply
handlers return (never raise) a degraded object holding the raw reply
under `raw_response` and empty or placeholder values for the structured
fields: evidence analysis gets empty `recommended_evidence` and
`key_issues` lists, timeline generation an empty `events` list, report
generation its placeholder title and summary. -/
theorem llm_degraded_on_invalid_json (response : String)
    (h : parseJson response = none) :
    jget (OpenAIService.analyze_evidence response) "raw_response"
        = some (.str response)
    ∧ jget (OpenAIService.analyze_evidence response) "recommended_evidence"
        = some (.arr [])
    ∧ jget (OpenAIService.analyze_evidence response) "key_issues" = some (.arr [])
    ∧ jget (OpenAIService.analyze_evidence response) "summary"
        = some (.str "Error parsing structured data")
    ∧ jget (GeminiService.generate_timeline response) "raw_response"
        = some (.str response)
    ∧ jget (GeminiService.generate_timeline response) "events" = some (.arr [])
    ∧ jget (GeminiService.generate_timeline response) "overview"
        = some (.str "Error parsing structured data")
    ∧ jget (OpenAIService.generate_report response) "raw_response"
        = some (.str response)
    ∧ jget (OpenAIService.generate_report response) "title"
        = some (.str "Legal Report")
    ∧ jget (OpenAIService.generate_report response) "executive_summary"
        = some (.str "Error parsing structured data") := by
  have ha : OpenAIService.analyze_evidence response = .obj
      [("summary", .str "Error parsing structured data"),
       ("raw_response", .str response),
       ("key_issues", .arr []),
       ("recommended_evidence", .arr [])] := by
    unfold OpenAIService.analyze_evidence
    rw [h]
  have hg : GeminiService.generate_timeline response = .obj
      [("title", .str "Timeline of Contract Dispute"),
       ("overview", .str "Error parsing structured data"),
       ("raw_response", .str response),
       ("events", .arr [])] := by
    unfold GeminiService.generate_timeline
    rw [h]
  have hr : OpenAIService.generate_report response = .obj
      [("title", .str "Legal Report"),
       ("executive_summary", .str "Error parsing structured data"),
       ("raw_response", .str response)] := by
    unfold OpenAIService.generate_report
    rw [h]
  refine ⟨by rw [ha]; rfl, by rw [ha]; rfl, by rw [ha]; rfl, by rw [ha]; rfl,
    by rw [hg]; rfl, by rw [hg]; rfl, by rw [hg]; rfl,
    by rw [hr]; rfl, by rw [hr]; rfl, by rw [hr]; rfl⟩

/-- C2 witness: the plain-text reply `I cannot comply` is not valid
JSON; evidence analysis on it yields an empty `recommended_evidence`
list and `raw_response` equal to that text. -/
theorem llm_degraded_on_invalid_json_witness :
    parseJson "I cannot comply" = none
    ∧ jget (OpenAIService.analyze_evidence "I cannot comply") "recommended_evidence"
        = some (.arr [])
    ∧ jget (OpenAIService.analyze_evidence "I cannot comply") "raw_response"
        = some (.str "I cannot comply") := by
  have h : parseJson "I cannot comply" = none := rfl
  exact ⟨h, (llm_degraded_on_invalid_json "I cannot comply" h).2.1,
    (llm_degraded_on_invalid_json "I cannot comply" h).1⟩

/-! ## Claim C3 -/

/-- Helper: bind on a successful `Except`. -/
theorem ebind_ok {α β : Type} (a : α) (f : α → Except String β) :
    (Except.ok a >>= f) = f a := rfl

/-- Helper: bind on a failed `Except`. -/
theorem ebind_err {α β : Type} (e : String) (f : α → Except String β) :
    ((Except.error e : Except String α) >>= f) = .error e := rfl

/-- Helper: a nonempty left factor fixes the first character of a
concatenation. -/
theorem strHead_append_left {a : String} (b : String) {c : Char}
    (h : strHead a = some c) : strHead (a ++ b) = some c := by
  unfold strHead at h ⊢
  rw [String.data_append]
  cases hd : a.data with
  | nil => rw [hd] at h; simp at h
  | cons x t =>
    rw [hd] at h
    simp only [List.head?_cons, Option.some.injEq] at h
    simp [h]

/-- Helper: strings with different first characters differ. -/
theorem strHead_ne_of_ne {s t : String} (h : strHead s ≠ strHead t) : s ≠ t :=
  fun he => h (by rw [he])

/-- Helper: concatenation preserves "empty or starts with `#`". -/
theorem emptyOrHash_append {a b : String}
    (ha : a = "" ∨ strHead a = some '#') (hb : b = "" ∨ strHead b = some '#') :
    a ++ b = "" ∨ strHead (a ++ b) = some '#' := by
  rcases ha with rfl | ha
  · simpa using hb
  · exact Or.inr (strHead_append_left b ha)

/-- Helper: a simple report section is empty or starts with `#`. -/
theorem sectionSimple_head (rd : Json) (k : String) (render : Json → String)
    (hr : ∀ v, strHead (render v) = some '#') :
    ∀ s, ReportRoutes.sectionSimple rd k render = .ok s →
      s = "" ∨ strHead s = some '#' := by
  intro s hs
  unfold ReportRoutes.sectionSimple at hs
  cases h1 : pyContains rd k with
  | error e => rw [h1, ebind_err] at hs; exact absurd hs (by simp)
  | ok b =>
    rw [h1, ebind_ok] at hs
    split at hs
    · cases h2 : pySubscript rd k with
      | error e => rw [h2, ebind_err] at hs; exact absurd hs (by simp)
      | ok v =>
        rw [h2, ebind_ok] at hs
        simp only [pure, Except.pure, Except.ok.injEq] at hs
        subst hs
        exact Or.inr (hr v)
    · simp only [pure, Except.pure, Except.ok.injEq] at hs
      subst hs
      exact Or.inl rfl

/-- Helper: the timeline section is empty or starts with `#`. -/
theorem renderTimelineSec_head (rd : Json) :
    ∀ s, ReportRoutes.renderTimelineSec rd = .ok s →
      s = "" ∨ strHead s = some '#' := by
  intro s hs
  unfold ReportRoutes.renderTimelineSec at hs
  cases h1 : pyContains rd "timeline" with
  | error e => rw [h1, ebind_err] at hs; exact absurd hs (by simp)
  | ok b =>
    rw [h1, ebind_ok] at hs
    split at hs
    · cases h2 : pySubscript rd "timeline" with
      | error e => rw [h2, ebind_err] at hs; exact absurd hs (by simp)
      | ok v =>
        rw [h2, ebind_ok] at hs
        cases h3 : pyIter v with
        | error e => rw [h3, ebind_err] at hs; exact absurd hs (by simp)
        | ok items =>
          rw [h3, ebind_ok] at hs
          cases h4 : items.mapM (fun ev => do
              let d ← pyGetD ev "date" (.str "Unknown date")
              let t ← pyGetD ev "event" (.str "Untitled event")
              let sg ← pyGetD ev "significance" (.str "")
              pure ("### " ++ pyToStr d ++ ": " ++ pyToStr t ++ "\n\n"
                ++ pyToStr sg ++ "\n\n")) with
          | error e => rw [h4, ebind_err] at hs; exact absurd hs (by simp)
          | ok pieces =>
            rw [h4, ebind_ok] at hs
            simp only [pure, Except.pure, Except.ok.injEq] at hs
            subst hs
            exact Or.inr (strHead_append_left _ rfl)
    · simp only [pure, Except.pure, Except.ok.injEq] at hs
      subst hs
      exact Or.inl rfl

/-- Helper: the key-issues section is empty or starts with `#`. -/
theorem renderKeyIssuesSec_head (rd : Json) :
    ∀ s, ReportRoutes.renderKeyIssuesSec rd = .ok s →
      s = "" ∨ strHead s = some '#' := by
  intro s hs
  unfold ReportRoutes.renderKeyIssuesSec at hs
  cases h1 : pyContains rd "key_issues" with
  | error e => rw [h1, ebind_err] at hs; exact absurd hs (by simp)
  | ok b =>
    rw [h1, ebind_ok] at hs
    split at hs
    · cases h2 : pySubscript rd "key_issues" with
      | error e => rw [h2, ebind_err] at hs; exact absurd hs (by simp)
      | ok v =>
        rw [h2, ebind_ok] at hs
        cases h3 : pyIter v with
        | error e => rw [h3, ebind_err] at hs; exact absurd hs (by simp)
        | ok items =>
          rw [h3, ebind_ok] at hs
          cases h4 : items.mapM ReportRoutes.renderIssue with
          | error e => rw [h4, ebind_err] at hs; exact absurd hs (by simp)
          | ok pieces =>
            rw [h4, ebind_ok] at hs
            simp only [pure, Except.pure, Except.ok.injEq] at hs
            subst hs
            exact Or.inr (strHead_append_left _ rfl)
    · simp only [pure, Except.pure, Except.ok.injEq] at hs
      subst hs
      exact Or.inl rfl

/-- Helper: the recommendations section is empty or starts with `#`. -/
theorem renderRecSec_head (rd : Json) :
    ∀ s, ReportRoutes.renderRecSec rd = .ok s →
      s = "" ∨ strHead s = some '#' := by
  intro s hs
  unfold ReportRoutes.renderRecSec at hs
  cases h1 : pyContains rd "recommendations" with
  | error e => rw [h1, ebind_err] at hs; exact absurd hs (by simp)
  | ok b =>
    rw [h1, ebind_ok] at hs
    split at hs
    · cases h2 : pySubscript rd "recommendations" with
      | error e => rw [h2, ebind_err] at hs; exact absurd hs (by simp)
      | ok v =>
        rw [h2, ebind_ok] at hs
        cases h3 : pyIter v with
        | error e => rw [h3, ebind_err] at hs; exact absurd hs (by simp)
        | ok items =>
          rw [h3, ebind_ok] at hs
          simp only [pure, Except.pure, Except.ok.injEq] at hs
          subst hs
          exact Or.inr (strHead_append_left _ rfl)
    · simp only [pure, Except.pure, Except.ok.injEq] at hs
      subst hs
      exact Or.inl rfl

/-- Helper: the appendix section is empty or starts with `#`. -/
theorem renderAppendixSec_head (rd : Json) :
    ∀ s, ReportRoutes.renderAppendixSec rd = .ok s →
      s = "" ∨ strHead s = some '#' := by
  intro s hs
  unfold ReportRoutes.renderAppendixSec at hs
  cases h1 : pyContains rd "appendix" with
  | error e => rw [h1, ebind_err] at hs; exact absurd hs (by simp)
  | ok b =>
    rw [h1, ebind_ok] at hs
    split at hs
    · cases h2 : pySubscript rd "appendix" with
      | error e => rw [h2, ebind_err] at hs; exact absurd hs (by simp)
      | ok a =>
        rw [h2, ebind_ok] at hs
        cases h3 : pyContains a "recommended_evidence_details" with
        | error e => rw [h3, ebind_err] at hs; exact absurd hs (by simp)
        | ok b2 =>
          rw [h3, ebind_ok] at hs
          split at hs
          · cases h4 : pySubscript a "recommended_evidence_details" with
            | error e => rw [h4, ebind_err] at hs; exact absurd hs (by simp)
            | ok lst =>
              rw [h4, ebind_ok] at hs
              cases h5 : pyIter lst with
              | error e => rw [h5, ebind_err] at hs; exact absurd hs (by simp)
              | ok items =>
                rw [h5, ebind_ok] at hs
                cases h6 : items.mapM ReportRoutes.renderAppendixItem with
                | error e => rw [h6, ebind_err] at hs; exact absurd hs (by simp)
                | ok pieces =>
                  rw [h6, ebind_ok] at hs
                  simp only [pure, Except.pure, Except.ok.injEq] at hs
                  subst hs
                  exact Or.inr (strHead_append_left _ rfl)
          · simp only [pure, Except.pure, Except.ok.injEq] at hs
            subst hs
            exact Or.inl rfl
    · simp only [pure, Except.pure, Except.ok.injEq] at hs
      subst hs
      exact Or.inl rfl

/-- Helper: whatever the model reply, a successfully rendered report is
empty or starts with a `#` heading — never the placeholder text. -/
theorem render_report_head (rd : Json) :
    ∀ s, ReportRoutes.render_report rd = .ok s → s = "" ∨ strHead s = some '#' := by
  intro s hs
  unfold ReportRoutes.render_report at hs
  cases g1 : ReportRoutes.sectionSimple rd "title"
      (fun v => "# " ++ pyToStr v ++ "\n\n") with
  | error e => rw [g1, ebind_err] at hs; exact absurd hs (by simp)
  | ok s1 =>
  rw [g1, ebind_ok] at hs
  cases g2 : ReportRoutes.sectionSimple rd "executive_summary"
      (fun v => "## Executive Summary\n\n" ++ pyToStr v ++ "\n\n") with
  | error e => rw [g2, ebind_err] at hs; exact absurd hs (by simp)
  | ok s2 =>
  rw [g2, ebind_ok] at hs
  cases g3 : ReportRoutes.sectionSimple rd "background"
      (fun v => "## Background and Context\n\n" ++ pyToStr v ++ "\n\n") with
  | error e => rw [g3, ebind_err] at hs; exact absurd hs (by simp)
  | ok s3 =>
  rw [g3, ebind_ok] at hs
  cases g4 : ReportRoutes.renderTimelineSec rd with
  | error e => rw [g4, ebind_err] at hs; exact absurd hs (by simp)
  | ok s4 =>
  rw [g4, ebind_ok] at hs
  cases g5 : ReportRoutes.renderKeyIssuesSec rd with
  | error e => rw [g5, ebind_err] at hs; exact absurd hs (by simp)
  | ok s5 =>
  rw [g5, ebind_ok] at hs
  cases g6 : ReportRoutes.sectionSimple rd "evidence_evaluation"
      (fun v => "## Evaluation of Evidence\n\n" ++ pyToStr v ++ "\n\n") with
  | error e => rw [g6, ebind_err] at hs; exact absurd hs (by simp)
  | ok s6 =>
  rw [g6, ebind_ok] at hs
  cases g7 : ReportRoutes.sectionSimple rd "legal_implications"
      (fun v => "## Legal Implications\n\n" ++ pyToStr v ++ "\n\n") with
  | error e => rw [g7, ebind_err] at hs; exact absurd hs (by simp)
  | ok s7 =>
  rw [g7, ebind_ok] at hs
  cases g8 : ReportRoutes.renderRecSec rd with
  | error e => rw [g8, ebind_err] at hs; exact absurd hs (by simp)
  | ok s8 =>
  rw [g8, ebind_ok] at hs
  cases g9 : ReportRoutes.sectionSimple rd "conclusion"
      (fun v => "## Conclusion\n\n" ++ pyToStr v ++ "\n\n") with
  | error e => rw [g9, ebind_err] at hs; exact absurd hs (by simp)
  | ok s9 =>
  rw [g9, ebind_ok] at hs
  cases g10 : ReportRoutes.renderAppendixSec rd with
  | error e => rw [g10, ebind_err] at hs; exact absurd hs (by simp)
  | ok s10 =>
  rw [g10, ebind_ok] at hs
  simp only [pure, Except.pure, Except.ok.injEq] at hs
  subst hs
  have h1 := sectionSimple_head rd "title" (fun v => "# " ++ pyToStr v ++ "\n\n")
    (fun v => strHead_append_left _ (strHead_append_left _ rfl)) s1 g1
  have h2 := sectionSimple_head rd "executive_summary"
    (fun v => "## Executive Summary\n\n" ++ pyToStr v ++ "\n\n")
    (fun v => strHead_append_left _ (strHead_append_left _ rfl)) s2 g2
  have h3 := sectionSimple_head rd "background"
    (fun v => "## Background and Context\n\n" ++ pyToStr v ++ "\n\n")
    (fun v => strHead_append_left _ (strHead_append_left _ rfl)) s3 g3
  have h4 := renderTimelineSec_head rd s4 g4
  have h5 := renderKeyIssuesSec_head rd s5 g5
  have h6 := sectionSimple_head rd "evidence_evaluation"
    (fun v => "## Evaluation of Evidence\n\n" ++ pyToStr v ++ "\n\n")
    (fun v => strHead_append_left _ (strHead_append_left _ rfl)) s6 g6
  have h7 := sectionSimple_head rd "legal_implications"
    (fun v => "## Legal Implications\n\n" ++ pyToStr v ++ "\n\n")
    (fun v => strHead_append_left _ (strHead_append_left _ rfl)) s7 g7
  have h8 := renderRecSec_head rd s8 g8
  have h9 := sectionSimple_head rd "conclusion"
    (fun v => "## Conclusion\n\n" ++ pyToStr v ++ "\n\n")
    (fun v => strHead_append_left _ (strHead_append_left _ rfl)) s9 g9
  have h10 := renderAppendixSec_head rd s10 g10
  exact emptyOrHash_append (emptyOrHash_append (emptyOrHash_append (emptyOrHash_append
    (emptyOrHash_append (emptyOrHash_append (emptyOrHash_append (emptyOrHash_append
      (emptyOrHash_append h1 h2) h3) h4) h5) h6) h7) h8) h9) h10

/-- C3 (amended): every timeline-generation request creates the
placeholder row synchronously and returns with status `"processing"`; a
report-generation request does the same when the referenced timeline
exists, and returns 404 creating no row when it does not.  The
background tasks overwrite the row content (description resp. content)
with generated content on success or an error message on any uncaught
exception, and never delete the row.  After completion the report
content never equals the report placeholder, and the timeline
description equals the timeline placeholder only in the echo case where
the model reply's own `overview` field is exactly the placeholder
text. -/
theorem placeholder_lifecycle :
    (∀ title, TimelineRoutes.generate_timeline_endpoint title
        = (⟨title, some (.strv TimelineRoutes.timeline_placeholder)⟩, "processing"))
    ∧ (∀ (reply : String) (row : Option TimelineRoutes.TimelineRow),
        (TimelineRoutes.run_timeline_task reply row).isSome = row.isSome)
    ∧ (∀ (reply : String) (row : TimelineRoutes.TimelineRow),
        TimelineRoutes.run_timeline_task reply (some row)
          = some ⟨row.title,
              match TimelineRoutes.timeline_task_body reply with
              | .ok d => d
              | .error e => some (.strv ("Error generating timeline: " ++ e))⟩)
    ∧ (∀ (reply : String) (row : TimelineRoutes.TimelineRow),
        (TimelineRoutes.run_timeline_task reply (some row)).map
            (fun r => r.description)
          = some (some (.strv TimelineRoutes.timeline_placeholder)) →
        jget (GeminiService.generate_timeline reply) "overview"
          = some (.str TimelineRoutes.timeline_placeholder))
    ∧ (∀ (tlid : Nat) (title : String),
        ReportRoutes.generate_report_endpoint none tlid title
          = .error ⟨404, "Timeline with ID " ++ toString tlid ++ " not found"⟩)
    ∧ (∀ (tl : TimelineRoutes.TimelineRow) (tlid : Nat) (title : String),
        ReportRoutes.generate_report_endpoint (some tl) tlid title
          = .ok (⟨title, ReportRoutes.report_placeholder, some tlid⟩, "processing"))
    ∧ (∀ (reply : String) (row : Option ReportRoutes.ReportRow),
        (ReportRoutes.run_report_task reply row).isSome = row.isSome)
    ∧ (∀ (reply : String) (row : ReportRoutes.ReportRow),
        (ReportRoutes.run_report_task reply (some row)).map
            ReportRoutes.ReportRow.content
          ≠ some ReportRoutes.report_placeholder) := by
  refine ⟨fun _ => rfl, ?_, fun _ _ => rfl, ?_, fun _ _ => rfl, fun _ _ _ => rfl, ?_, ?_⟩
  · intro reply row
    cases row <;> simp [TimelineRoutes.run_timeline_task]
  · intro reply row hmap
    have heq : (match TimelineRoutes.timeline_task_body reply with
        | .ok d => d
        | .error e =>
            some (TimelineRoutes.CellVal.strv ("Error generating timeline: " ++ e)))
        = some (.strv TimelineRoutes.timeline_placeholder) := by
      simpa [TimelineRoutes.run_timeline_task] using hmap
    cases hbody : TimelineRoutes.timeline_task_body reply with
    | error e =>
      rw [hbody] at heq
      have hstr : some (TimelineRoutes.CellVal.strv ("Error generating timeline: " ++ e))
          = some (.strv TimelineRoutes.timeline_placeholder) := heq
      simp only [Option.some.injEq, TimelineRoutes.CellVal.strv.injEq] at hstr
      have hE : strHead ("Error generating timeline: " ++ e) = some 'E' :=
        strHead_append_left e rfl
      rw [hstr] at hE
      exact absurd hE (by decide)
    | ok d =>
      rw [hbody] at heq
      have hd : d = some (.strv TimelineRoutes.timeline_placeholder) := heq
      subst hd
      unfold TimelineRoutes.timeline_task_body at hbody
      split at hbody
      · rename_i kvs hg
        split at hbody <;> simp at hbody
        -- the string-overview arm and the absent-key arm survive
        · rename_i s hov
          rw [hg]
          simp only [jget, hov, hbody]
        · exact absurd hbody (by decide)
      · exact absurd hbody (by simp)
  · intro reply row
    cases row <;> simp [ReportRoutes.run_report_task]
  · intro reply row
    intro hcontra0
    have hcontra : (match ReportRoutes.report_task_content reply with
        | .ok c => c
        | .error e => "Error generating report: " ++ e)
        = ReportRoutes.report_placeholder := by
      simpa [ReportRoutes.run_report_task] using hcontra0
    cases hc : ReportRoutes.report_task_content reply with
    | ok c =>
      rw [hc] at hcontra
      have hcc : c = ReportRoutes.report_placeholder := hcontra
      have hc' : ReportRoutes.render_report (OpenAIService.generate_report reply)
          = .ok c := hc
      rcases render_report_head _ c hc' with rfl | hh
      · exact absurd hcc (by decide)
      · rw [hcc] at hh
        exact absurd hh (by decide)
    | error e =>
      rw [hc] at hcontra
      have hstr : "Error generating report: " ++ e = ReportRoutes.report_placeholder :=
        hcontra
      have hE : strHead ("Error generating report: " ++ e) = some 'E' :=
        strHead_append_left e rfl
      rw [hstr] at hE
      exact absurd hE (by decide)

/-- C3 counterexample: a model reply whose `overview` field is exactly
the placeholder text leaves the timeline description equal to the
original placeholder after background completion; and a
report-generation request whose timeline id does not resolve returns a
404 without creating any placeholder row. -/
theorem timeline_placeholder_echo :
    (TimelineRoutes.run_timeline_task
        "\x7b\"overview\": \"Generating timeline... This may take a few minutes.\"\x7d"
        (some ⟨"T", some (.strv TimelineRoutes.timeline_placeholder)⟩)).map
        (fun r => r.description)
      = some (some (.strv TimelineRoutes.timeline_placeholder))
    ∧ ReportRoutes.generate_report_endpoint none 7 "t"
      = .error ⟨404, "Timeline with ID 7 not found"⟩ := by
  exact ⟨rfl, rfl⟩

/-- C3 witness: the lifecycle theorem applied at concrete inputs — the
endpoint call, a task run on an existing row, the echo reply (the only
way the description can still equal the placeholder), and a report task
run on an invalid reply. -/
theorem placeholder_lifecycle_witness :
    TimelineRoutes.generate_timeline_endpoint "T"
        = (⟨"T", some (.strv TimelineRoutes.timeline_placeholder)⟩, "processing")
    ∧ (TimelineRoutes.run_timeline_task "not json"
        (some ⟨"T", some (.strv TimelineRoutes.timeline_placeholder)⟩)).isSome = true
    ∧ jget (GeminiService.generate_timeline
        "\x7b\"overview\": \"Generating timeline... This may take a few minutes.\"\x7d")
        "overview" = some (.str TimelineRoutes.timeline_placeholder)
    ∧ (ReportRoutes.run_report_task "I cannot comply"
        (some ⟨"R", ReportRoutes.report_placeholder, some 1⟩)).map
        ReportRoutes.ReportRow.content
      ≠ some ReportRoutes.report_placeholder := by
  refine ⟨placeholder_lifecycle.1 "T", ?_, ?_, ?_⟩
  · exact (placeholder_lifecycle.2.1 "not json"
      (some ⟨"T", some (.strv TimelineRoutes.timeline_placeholder)⟩)).trans rfl
  · exact placeholder_lifecycle.2.2.2.1
      "\x7b\"overview\": \"Generating timeline... This may take a few minutes.\"\x7d"
      ⟨"T", some (.strv TimelineRoutes.timeline_placeholder)⟩ rfl
  · exact placeholder_lifecycle.2.2.2.2.2.2.2 "I cannot comply"
      ⟨"R", ReportRoutes.report_placeholder, some 1⟩
